import Mathlib

/-!
# libshiboken/conversions.h

A shallow embedding of the converter templates of `libshiboken/conversions.h`
and the properties proved about them.

Conventions of the embedding.

* Native integers are mathematical integers (`Int`) together with the range of
  their C++ type; a narrowing `static_cast` reduces modulo `2 ^ bits`.
* The widths the C++ source leaves to the platform (`long`, the signedness of
  plain `char`, the result of an out-of-range floating to integer cast) are
  fields of `Platform`; theorems quantify over every platform.
* A dynamic value is a `PyObject`.  The pending-error indicator of the dynamic
  runtime is returned next to the native value (`CppResult`): the converters
  set an error and still return a value.
* `toCpp` returns `Option`: `none` stands for the places where the C++ code has
  no defined result: it dereferences a null pointer, fails an `assert`, reads
  an object that is no wrapper as one, or overflows a signed index.  The
  `toPython` of the list converter returns `Option` for the same reason.
* The sizes and indices the list converter keeps in `int` are reduced to the
  range of `int` (`castInt`); the dynamic runtime and the native containers
  count in wider types.
* The C-API of the dynamic runtime and the helper headers of the library
  (`sbkpython.h`, `sbkstring.h`, `basewrapper.h`) are not part of the embedded
  file; each function this file uses from them is modelled once, with a doc
  comment saying so.  The dynamic side has one integer representation, so the
  `PyInt_*` names of `sbkpython.h` stand for their `PyLong_*` counterparts.
* The native `std::list` is a `List`, the native `std::map` a list of entries in
  increasing key order whose `insert` does not replace an existing entry.
-/

namespace Shiboken

/-! ## Native integer types -/

/-- Parameters the C++ source leaves to the target platform. -/
structure Platform where
  /-- The type `long` has 64 bits (LP64); otherwise it has 32 (ILP32, LLP64). -/
  long64 : Bool
  /-- Plain `char` is a signed type. -/
  charSigned : Bool
  /-- Value produced by a floating to integer cast whose operand does not fit. -/
  fpInvalid : Int

/-- The 32-bit data model (the one of the BlackBerry 10 port). -/
def ILP32 : Platform := { long64 := false, charSigned := false, fpInvalid := 0 }

/-- The 64-bit Unix data model. -/
def LP64 : Platform := { long64 := true, charSigned := true, fpInvalid := -9223372036854775808 }

/-- The integer types for which the file instantiates a converter or an
overflow checker. -/
inductive CInt where
  | char | schar | uchar
  | short | ushort
  | int | uint
  | long | ulong
  | llong | ullong
  deriving DecidableEq, Repr

/-- The value of `std::numeric_limits<T>::is_signed`. -/
def CInt.is_signed (P : Platform) : CInt → Bool
  | .char => P.charSigned
  | .schar => true
  | .uchar => false
  | .short => true
  | .ushort => false
  | .int => true
  | .uint => false
  | .long => true
  | .ulong => false
  | .llong => true
  | .ullong => false

/-- Width of the type in bits. -/
def CInt.bits (P : Platform) : CInt → Nat
  | .char => 8
  | .schar => 8
  | .uchar => 8
  | .short => 16
  | .ushort => 16
  | .int => 32
  | .uint => 32
  | .long => if P.long64 then 64 else 32
  | .ulong => if P.long64 then 64 else 32
  | .llong => 64
  | .ullong => 64

/-- The value of `std::numeric_limits<T>::min()`. -/
def CInt.min (P : Platform) (T : CInt) : Int :=
  if T.is_signed P then -(2 ^ (T.bits P - 1)) else 0

/-- The value of `std::numeric_limits<T>::max()`. -/
def CInt.max (P : Platform) (T : CInt) : Int :=
  if T.is_signed P then 2 ^ (T.bits P - 1) - 1 else 2 ^ (T.bits P) - 1

/-- The value `v` is representable in `T`. -/
def CInt.inRange (P : Platform) (T : CInt) (v : Int) : Bool :=
  decide (T.min P ≤ v) && decide (v ≤ T.max P)

/-- Integral conversion `static_cast<T>(v)`: reduction modulo `2 ^ bits` into
the range of `T`. -/
def static_cast (P : Platform) (T : CInt) (v : Int) : Int :=
  let m : Int := 2 ^ (T.bits P)
  let r := v % m
  if T.is_signed P && decide (2 ^ (T.bits P - 1) ≤ r) then r - m else r

/-- Smallest value of `PY_LONG_LONG`. -/
def LLONG_MIN : Int := -(2 ^ 63)

/-- Largest value of `PY_LONG_LONG`. -/
def LLONG_MAX : Int := 2 ^ 63 - 1

/-- Largest value of `unsigned PY_LONG_LONG`. -/
def ULLONG_MAX : Int := 2 ^ 64 - 1

/-- Largest value of `int`, a type of 32 bits on every platform. -/
def INT_MAX : Int := 2147483647

/-- Conversion to `int` of a `Py_ssize_t` or `size_t` value (the initialisation
`int max = PySequence_Length(pyObj)`, the cast `(int) cppobj.size()`):
reduction modulo `2 ^ 32` into the range of `int`. -/
def castInt (v : Int) : Int :=
  let r := v % 4294967296
  if 2147483648 ≤ r then r - 4294967296 else r

/-! ## OverFlowChecker -/

/-- The three integer specialisations of `OverFlowChecker<T>::check`, applied to
a `PY_LONG_LONG` value: the one for `PY_LONG_LONG` itself, the signed one and the
unsigned one (which compares `static_cast<unsigned long long>(value)`). -/
def OverFlowChecker.check (P : Platform) (T : CInt) (value : Int) : Bool :=
  match T with
  | .llong => false
  | _ =>
    if T.is_signed P then
      decide (value < T.min P) || decide (value > T.max P)
    else
      decide (value < 0) || decide (value % 2 ^ 64 > T.max P)

/-! ## Dynamic values -/

/-- A C `double`: a finite value is `m * 2 ^ e`. -/
inductive Double where
  | finite (m : Int) (e : Int)
  | inf (negative : Bool)
  | nan
  deriving DecidableEq, Repr

/-- Type objects of the dynamic runtime.  `PyInt_Type` is `PyLong_Type`
(see `PyInt_Type` below).  A wrapper type carries the identities of the wrapper
types it derives from; an enumeration type is identified by a number. -/
inductive PyTypeObject where
  | PyBaseObject_Type
  | PyNone_Type
  | PyBool_Type
  | PyLong_Type
  | PyFloat_Type
  | PyBytes_Type
  | PyUnicode_Type
  | PyList_Type
  | PyTuple_Type
  | PyDict_Type
  | SbkEnum (id : Nat)
  | SbkObject (id : Nat) (bases : List Nat)
  deriving DecidableEq, Repr

/-- Objects of the dynamic runtime.  A dictionary is the list of its entries in
the iteration order of `PyDict_Next`.  A wrapper object holds the identity of its
type, the identities of the base wrapper types, the address of the native object
and, when its class implements the sequence protocol, its items. -/
inductive PyObject where
  | none
  | bool (b : Bool)
  | int (v : Int)
  | float (d : Double)
  | bytes (s : List Nat)
  | unicode (s : List Nat)
  | list (items : List PyObject)
  | tuple (items : List PyObject)
  | dict (entries : List (PyObject × PyObject))
  | enumItem (type : Nat) (value : Int)
  | wrapper (type : Nat) (bases : List Nat) (cptr : Nat) (seq : Option (List PyObject))

/-- Exceptions the converters can leave pending. -/
inductive PyExc where
  | OverflowError
  | TypeError
  | ValueError
  | IndexError
  deriving DecidableEq, Repr

/-- A native value returned by `toCpp` together with the error indicator the
call leaves pending (`none`: no error). -/
structure CppResult (α : Type) where
  value : α
  error : Option PyExc
  deriving DecidableEq, Repr

/-- The field `ob_type` of an object. -/
def PyObject.ob_type : PyObject → PyTypeObject
  | .none => .PyNone_Type
  | .bool _ => .PyBool_Type
  | .int _ => .PyLong_Type
  | .float _ => .PyFloat_Type
  | .bytes _ => .PyBytes_Type
  | .unicode _ => .PyUnicode_Type
  | .list _ => .PyList_Type
  | .tuple _ => .PyTuple_Type
  | .dict _ => .PyDict_Type
  | .enumItem t _ => .SbkEnum t
  | .wrapper t bs _ _ => .SbkObject t bs

/-- Modelled from the spec: the C-API function `PyType_IsSubtype` of the dynamic
runtime (not part of this file).  The boolean type derives from the integer
type, a wrapper type from the wrapper types listed as its bases, and every type
from the base object type. -/
def PyType_IsSubtype (a b : PyTypeObject) : Bool :=
  a == b ||
  match a, b with
  | _, .PyBaseObject_Type => true
  | .PyBool_Type, .PyLong_Type => true
  | .SbkObject _ bases, .SbkObject j _ => bases.contains j
  | _, _ => false

/-- Modelled from the spec: the C-API test `PyObject_TypeCheck(o, tp)`; the type
argument may be the null pointer that the unspecialised `SbkType<T>()` returns,
in which case no object passes. -/
def PyObject_TypeCheck (o : PyObject) (tp : Option PyTypeObject) : Bool :=
  match tp with
  | Option.none => false
  | some t => PyType_IsSubtype o.ob_type t

/-- Modelled from the spec: `sbkpython.h` defines `PyInt_Type` as `PyLong_Type`;
the dynamic side has one integer representation. -/
def PyInt_Type : PyTypeObject := .PyLong_Type

/-- Modelled from the spec: `PyLong_Check`, true of integers and of booleans. -/
def PyLong_Check (o : PyObject) : Bool :=
  PyObject_TypeCheck o (some .PyLong_Type)

/-- Modelled from the spec: `sbkpython.h` defines `PyInt_Check` as
`PyLong_Check`. -/
def PyInt_Check (o : PyObject) : Bool := PyLong_Check o

/-- Modelled from the spec: `PyBool_Check`, true of the two boolean objects. -/
def PyBool_Check (o : PyObject) : Bool :=
  match o with
  | .bool _ => true
  | _ => false

/-- Modelled from the spec: `PyFloat_Check`. -/
def PyFloat_Check (o : PyObject) : Bool :=
  PyObject_TypeCheck o (some .PyFloat_Type)

/-- Modelled from the spec: `PyBytes_Check`. -/
def PyBytes_Check (o : PyObject) : Bool :=
  PyObject_TypeCheck o (some .PyBytes_Type)

/-- Modelled from the spec: `PyUnicode_Check`. -/
def PyUnicode_Check (o : PyObject) : Bool :=
  PyObject_TypeCheck o (some .PyUnicode_Type)

/-- Modelled from the spec: `PyDict_Check`. -/
def PyDict_Check (o : PyObject) : Bool :=
  PyObject_TypeCheck o (some .PyDict_Type)

/-- Modelled from the spec: `PyNumber_Check`, true of the objects that convert
to an integer or a float: integers, booleans, floats and enumeration items. -/
def PyNumber_Check (o : PyObject) : Bool :=
  match o with
  | .bool _ => true
  | .int _ => true
  | .float _ => true
  | .enumItem _ _ => true
  | _ => false

/-- Modelled from the spec: `sbkpython.h` defines `SbkNumber_Check` as
`PyNumber_Check`. -/
def SbkNumber_Check (o : PyObject) : Bool := PyNumber_Check o

/-- Modelled from the spec: `Object::checkType` of `basewrapper.h`, true of the
instances of wrapper types. -/
def Object.checkType (o : PyObject) : Bool :=
  match o with
  | .wrapper _ _ _ _ => true
  | _ => false

/-- Modelled from the spec: `Object::cppPointer` of `basewrapper.h`, the native
address stored in a wrapper.  The callers pass it
`reinterpret_cast<SbkObject*>(pyobj)`: for an object that is no wrapper the
call has no defined result (`none`). -/
def Object.cppPointer (o : PyObject) : Option Nat :=
  match o with
  | .wrapper _ _ p _ => some p
  | _ => Option.none

/-! ## Numeric functions of the dynamic runtime -/

/-- Truncation of a finite `double` toward zero; `none` for infinities and
not-a-number. -/
def Double.trunc : Double → Option Int
  | .finite m e => some (if 0 ≤ e then m * 2 ^ e.toNat else Int.tdiv m (2 ^ (-e).toNat))
  | .inf _ => Option.none
  | .nan => Option.none

/-- Conversion of a `double` to the integer type `T` (the implicit conversion
of a `double` argument to `PY_LONG_LONG`, or `static_cast<T>(d)`): truncation
toward zero when the result is representable, the platform value otherwise. -/
def castDouble (P : Platform) (T : CInt) (d : Double) : Int :=
  match d.trunc with
  | some t => if T.inRange P t then t else P.fpInvalid
  | Option.none => P.fpInvalid

/-- Modelled from the spec: the C-API accessor `PyFloat_AS_DOUBLE`, used only
after `PyFloat_Check`; any other object reads as not-a-number. -/
def PyFloat_AS_DOUBLE (o : PyObject) : Double :=
  match o with
  | .float d => d
  | _ => .nan

/-- The integer an object converts to through the number protocol, or the error
the conversion raises. -/
def PyNumber_asInt (o : PyObject) : Except PyExc Int :=
  match o with
  | .int v => .ok v
  | .bool b => .ok (if b then 1 else 0)
  | .enumItem _ v => .ok v
  | .float d =>
    match d with
    | .finite _ _ => .ok ((d.trunc).getD 0)
    | .inf _ => .error .OverflowError
    | .nan => .error .ValueError
  | _ => .error .TypeError

/-- Modelled from the spec: the C-API function `PyLong_AsLongLong`.  It returns
the value of an integer that fits `PY_LONG_LONG`; for an integer that does not
fit it raises OverflowError and returns `-1`; for an object that is no number
it raises TypeError and returns `-1`. -/
def PyLong_AsLongLong (o : PyObject) : CppResult Int :=
  match PyNumber_asInt o with
  | .ok v =>
    if decide (LLONG_MIN ≤ v) && decide (v ≤ LLONG_MAX) then ⟨v, Option.none⟩
    else ⟨-1, some .OverflowError⟩
  | .error e => ⟨-1, some e⟩

/-- Modelled from the spec: the C-API function `PyLong_AsLong`, as
`PyLong_AsLongLong` with the range of `long`. -/
def PyLong_AsLong (P : Platform) (o : PyObject) : CppResult Int :=
  match PyNumber_asInt o with
  | .ok v =>
    if CInt.inRange P .long v then ⟨v, Option.none⟩
    else ⟨-1, some .OverflowError⟩
  | .error e => ⟨-1, some e⟩

/-- Modelled from the spec: the C-API function `PyLong_AsUnsignedLongLong`,
defined on integer objects only; a negative or too large integer raises
OverflowError and the call returns `(unsigned long long) -1`. -/
def PyLong_AsUnsignedLongLong (o : PyObject) : CppResult Int :=
  match o with
  | .int v =>
    if decide (0 ≤ v) && decide (v ≤ ULLONG_MAX) then ⟨v, Option.none⟩
    else ⟨ULLONG_MAX, some .OverflowError⟩
  | .bool b => ⟨if b then 1 else 0, Option.none⟩
  | _ => ⟨ULLONG_MAX, some .TypeError⟩

/-- Modelled from the spec: `sbkpython.h` defines `PyInt_AsUnsignedLongLongMask`
as `PyLong_AsLongLong`. -/
def PyInt_AsUnsignedLongLongMask (o : PyObject) : CppResult Int := PyLong_AsLongLong o

/-- Modelled from the spec: `sbkpython.h` defines `PyInt_AS_LONG` as
`PyLong_AS_LONG`, which is `PyLong_AsLong`. -/
def PyInt_AS_LONG (P : Platform) (o : PyObject) : CppResult Int := PyLong_AsLong P o

/-- Modelled from the spec: `PyInt_FromLong` (`PyLong_FromLong`) boxes a `long`
into the dynamic integer of the same value. -/
def PyInt_FromLong (v : Int) : PyObject := .int v

/-- Modelled from the spec: `PyLong_FromUnsignedLong`. -/
def PyLong_FromUnsignedLong (v : Int) : PyObject := .int v

/-- Modelled from the spec: `PyLong_FromLongLong`. -/
def PyLong_FromLongLong (v : Int) : PyObject := .int v

/-- Modelled from the spec: `PyLong_FromUnsignedLongLong`. -/
def PyLong_FromUnsignedLongLong (v : Int) : PyObject := .int v

/-- Modelled from the spec: `PyBool_FromLong`, the canonical boolean of a
`long`. -/
def PyBool_FromLong (v : Int) : PyObject := .bool (decide (v ≠ 0))

/-- The error indicator after a call that may raise: a new error replaces the
pending one. -/
def PyErr_merge (pending raised : Option PyExc) : Option PyExc :=
  match raised with
  | some e => some e
  | Option.none => pending

/-! ## String helpers (`sbkstring.h`)

The header is not part of the embedded file.  Its functions convert between a
native null-terminated byte buffer and the dynamic string representation: here
a dynamic string is the list of its characters and its buffer holds one byte
per character.  A runtime whose strings are Unicode text with a multi-byte
buffer encoding agrees with this on the characters `0 .. 127` only. -/

/-- Modelled from the spec: `Shiboken::String::check` of `sbkstring.h`, true of
the no-value sentinel and of dynamic strings. -/
def String.check (o : PyObject) : Bool :=
  match o with
  | .none => true
  | _ => PyUnicode_Check o

/-- Modelled from the spec: `Shiboken::String::len`, the number of characters of
a dynamic string or of bytes of a byte sequence, `0` for anything else. -/
def String.len (o : PyObject) : Nat :=
  match o with
  | .unicode s => s.length
  | .bytes s => s.length
  | _ => 0

/-- Modelled from the spec: `Shiboken::String::checkChar`, a single-character
string. -/
def String.checkChar (o : PyObject) : Bool :=
  String.check o && String.len o == 1

/-- Modelled from the spec: `Shiboken::String::isConvertible`, the same test as
`Shiboken::String::check`. -/
def String.isConvertible (o : PyObject) : Bool := String.check o

/-- Modelled from the spec: `Shiboken::String::toCString`, the conversion of
the dynamic string representation to a native null-terminated byte buffer: the
bytes of the buffer (terminator not included), one per character of the
string; `none` is the null pointer, returned for the no-value sentinel and for
objects that are no strings. -/
def String.toCString (o : PyObject) : Option (List Nat) :=
  match o with
  | .unicode s => some s
  | .bytes s => some s
  | _ => Option.none

/-- Modelled from the spec: `Shiboken::String::fromCString`, the conversion of
a native null-terminated byte buffer to the dynamic string representation: one
character per byte. -/
def String.fromCString (s : List Nat) : PyObject := .unicode s

/-- Modelled from the spec: `Shiboken::String::fromFormat("%c", c)`, which
re-renders a character as a one-character dynamic string: the string whose
buffer holds the byte of `c`. -/
def String.fromFormat_c (c : Int) : PyObject := .unicode [(c % 256).toNat]

/-- The macro `SbkChar_Check` of the file. -/
def SbkChar_Check (o : PyObject) : Bool :=
  SbkNumber_Check o || String.checkChar o

/-- Element `[0]` of a null-terminated buffer: the first byte, or the
terminator of an empty buffer. -/
def cstrFirst (s : List Nat) : Int := (s.headD 0 : Nat)

/-! ## Sequence and mapping protocol -/

/-- The items an object presents through the sequence protocol, `none` when it
does not implement it.  The items of a string are its one-character strings,
those of a byte sequence are integers. -/
def PySequence_items (o : PyObject) : Option (List PyObject) :=
  match o with
  | .list xs => some xs
  | .tuple xs => some xs
  | .unicode s => some (s.map fun c => PyObject.unicode [c])
  | .bytes s => some (s.map fun b => PyObject.int b)
  | .wrapper _ _ _ seq => seq
  | _ => Option.none

/-- Modelled from the spec: the C-API test `PySequence_Check`. -/
def PySequence_Check (o : PyObject) : Bool := (PySequence_items o).isSome

/-- Modelled from the spec: the C-API function `PySequence_Length`
(`PySequence_Size`): the number of items, or `-1` with TypeError pending when the
object is no sequence. -/
def PySequence_Length (o : PyObject) : CppResult Int :=
  match PySequence_items o with
  | some xs => ⟨xs.length, Option.none⟩
  | Option.none => ⟨-1, some .TypeError⟩

/-- Modelled from the spec: the C-API function `PySequence_GetItem`; `none` is
the null pointer returned (with an error) for a bad index or a non-sequence. -/
def PySequence_GetItem (o : PyObject) (i : Nat) : Option PyObject :=
  match PySequence_items o with
  | some xs => xs.get? i
  | Option.none => Option.none

/-- Modelled from the spec: the key/value pairs that successive calls of the
C-API function `PyDict_Next` produce, in the iteration order of the dictionary;
for an object that is no dictionary the first call already reports the end. -/
def PyDict_entries (o : PyObject) : List (PyObject × PyObject) :=
  match o with
  | .dict es => es
  | _ => []

/-! ## Converters -/

/-- The four operations of a specialisation `Converter<T>`; `α` is the native
type.  `toCpp` is `none` where the C++ code has no defined result. -/
structure Converter (α : Type) where
  checkType : PyObject → Bool
  isConvertible : PyObject → Bool
  toPython : α → PyObject
  toCpp : PyObject → Option (CppResult α)

/-- The specialisations `SbkType<T>()` for the integer types (lines 57 to 70 of
the file). -/
def SbkType_int : CInt → PyTypeObject
  | .int => PyInt_Type
  | .uint => .PyLong_Type
  | .short => PyInt_Type
  | .ushort => PyInt_Type
  | .long => .PyLong_Type
  | .ulong => .PyLong_Type
  | .llong => .PyLong_Type
  | .ullong => .PyLong_Type
  | .char => PyInt_Type
  | .schar => PyInt_Type
  | .uchar => PyInt_Type

/-- The specialisation `Converter<bool>`. -/
def Converter_bool (P : Platform) : Converter Bool where
  checkType pyobj := PyBool_Check pyobj
  isConvertible pyobj := PyInt_Check pyobj
  toPython cppobj := PyBool_FromLong (if cppobj then 1 else 0)
  toCpp pyobj :=
    let r := PyInt_AS_LONG P pyobj
    some ⟨decide (r.value ≠ 0), r.error⟩

/-- The function `Converter_PyInt<PyIntEquiv>::toCpp`. -/
def Converter_PyInt.toCpp (P : Platform) (T : CInt) (pyobj : PyObject) : Option (CppResult Int) :=
  if PyFloat_Check pyobj then
    let d_result := PyFloat_AS_DOUBLE pyobj
    let error :=
      if OverFlowChecker.check P T (castDouble P .llong d_result) then some PyExc.OverflowError
      else Option.none
    some ⟨castDouble P T d_result, error⟩
  else
    let result := PyLong_AsLongLong pyobj
    let error :=
      if OverFlowChecker.check P T result.value then some PyExc.OverflowError
      else result.error
    some ⟨static_cast P T result.value, error⟩

/-- The template `Converter_PyInt<PyIntEquiv>`. -/
def Converter_PyInt (P : Platform) (T : CInt) : Converter Int where
  checkType pyobj := PyInt_Check pyobj
  isConvertible pyobj := SbkNumber_Check pyobj
  toPython cppobj := PyInt_FromLong (static_cast P .long cppobj)
  toCpp pyobj := Converter_PyInt.toCpp P T pyobj

/-- The template `Converter_PyULongInt<T>`: `Converter_PyInt<T>` with `toPython`
replaced. -/
def Converter_PyULongInt (P : Platform) (T : CInt) : Converter Int where
  checkType := (Converter_PyInt P T).checkType
  isConvertible := (Converter_PyInt P T).isConvertible
  toPython cppobj := PyLong_FromUnsignedLong (static_cast P .ulong cppobj)
  toCpp := (Converter_PyInt P T).toCpp

/-- The function `CharConverter<CharType>::toCpp`. -/
def CharConverter.toCpp (P : Platform) (T : CInt) (pyobj : PyObject) : Option (CppResult Int) :=
  if PyBytes_Check pyobj then
    match pyobj with
    | .bytes s =>
      if s.length = 1 then some ⟨static_cast P T (static_cast P .char (cstrFirst s)), Option.none⟩
      else Option.none
    | _ => Option.none
  else if PyInt_Check pyobj then
    let result := PyInt_AsUnsignedLongLongMask pyobj
    let error :=
      if OverFlowChecker.check P T result.value then some PyExc.OverflowError
      else result.error
    some ⟨static_cast P T result.value, error⟩
  else if String.check pyobj then
    match String.toCString pyobj with
    | some s => some ⟨static_cast P T (static_cast P .char (cstrFirst s)), Option.none⟩
    | Option.none => Option.none
  else
    some ⟨0, Option.none⟩

/-- The template `CharConverter<CharType>`. -/
def CharConverter (P : Platform) (T : CInt) : Converter Int where
  checkType pyobj := SbkChar_Check pyobj
  isConvertible pyobj := SbkChar_Check pyobj
  toPython cppobj := PyInt_FromLong cppobj
  toCpp pyobj := CharConverter.toCpp P T pyobj

/-- The specialisation `Converter<char>`: its own `toCpp` has the body of
`CharConverter<char>::toCpp`, and `toPython` renders a one-character string. -/
def Converter_char (P : Platform) : Converter Int where
  checkType := (CharConverter P .char).checkType
  isConvertible pyobj := SbkChar_Check pyobj
  toPython cppObj := String.fromFormat_c cppObj
  toCpp pyobj := CharConverter.toCpp P .char pyobj

/-- The specialisation `Converter<PY_LONG_LONG>`; it declares neither
`checkType` nor `isConvertible`. -/
def Converter_llong.toPython (cppobj : Int) : PyObject := PyLong_FromLongLong cppobj

/-- The function `Converter<PY_LONG_LONG>::toCpp`. -/
def Converter_llong.toCpp (pyobj : PyObject) : Option (CppResult Int) :=
  some (PyLong_AsLongLong pyobj)

/-- The function `Converter<unsigned PY_LONG_LONG>::toPython`. -/
def Converter_ullong.toPython (cppobj : Int) : PyObject := PyLong_FromUnsignedLongLong cppobj

/-- The function `Converter<unsigned PY_LONG_LONG>::toCpp`. -/
def Converter_ullong.toCpp (pyobj : PyObject) : Option (CppResult Int) :=
  some (PyLong_AsUnsignedLongLong pyobj)

/-- The integer-like primitive types. -/
inductive Primitive where
  | bool
  | int (T : CInt)
  deriving DecidableEq, Repr

/-- Native values of a primitive type: `bool` holds `0` or `1`, an integer type
the values of its range. -/
def Primitive.inRange (P : Platform) : Primitive → Int → Bool
  | .bool, v => decide (v = 0) || decide (v = 1)
  | .int T, v => T.inRange P v

/-- The function `Converter<T>::toPython` selected for the primitive type `T` by
the specialisations of lines 375 to 440. -/
def Primitive.toPython (P : Platform) : Primitive → Int → PyObject
  | .bool, v => (Converter_bool P).toPython (decide (v ≠ 0))
  | .int .char, v => (Converter_char P).toPython v
  | .int .schar, v => (CharConverter P .schar).toPython v
  | .int .uchar, v => (CharConverter P .uchar).toPython v
  | .int .short, v => (Converter_PyInt P .short).toPython v
  | .int .ushort, v => (Converter_PyInt P .ushort).toPython v
  | .int .int, v => (Converter_PyInt P .int).toPython v
  | .int .long, v => (Converter_PyInt P .long).toPython v
  | .int .uint, v => (Converter_PyULongInt P .uint).toPython v
  | .int .ulong, v => (Converter_PyULongInt P .ulong).toPython v
  | .int .llong, v => Converter_llong.toPython v
  | .int .ullong, v => Converter_ullong.toPython v

/-- The function `Converter<T>::toCpp` selected for the primitive type `T`; a
`bool` result is rendered as `0` or `1`. -/
def Primitive.toCpp (P : Platform) : Primitive → PyObject → Option (CppResult Int)
  | .bool, o =>
    ((Converter_bool P).toCpp o).map fun r => ⟨if r.value then 1 else 0, r.error⟩
  | .int .char, o => (Converter_char P).toCpp o
  | .int .schar, o => (CharConverter P .schar).toCpp o
  | .int .uchar, o => (CharConverter P .uchar).toCpp o
  | .int .short, o => (Converter_PyInt P .short).toCpp o
  | .int .ushort, o => (Converter_PyInt P .ushort).toCpp o
  | .int .int, o => (Converter_PyInt P .int).toCpp o
  | .int .long, o => (Converter_PyInt P .long).toCpp o
  | .int .uint, o => (Converter_PyULongInt P .uint).toCpp o
  | .int .ulong, o => (Converter_PyULongInt P .ulong).toCpp o
  | .int .llong, o => Converter_llong.toCpp o
  | .int .ullong, o => Converter_ullong.toCpp o

/-- The template `Converter_PyFloat<PyFloatEquiv>`, classification part. -/
def Converter_PyFloat.checkType (obj : PyObject) : Bool := PyFloat_Check obj

/-- The function `Converter_PyFloat<PyFloatEquiv>::isConvertible`. -/
def Converter_PyFloat.isConvertible (obj : PyObject) : Bool := SbkNumber_Check obj

/-- The function `EnumConverter<CppEnum>::checkType`; the argument is the value
of `SbkType<CppEnum>()`. -/
def EnumConverter.checkType (sbkType : Option PyTypeObject) (pyObj : PyObject) : Bool :=
  PyObject_TypeCheck pyObj sbkType

/-- The function `EnumConverter<CppEnum>::isConvertible`. -/
def EnumConverter.isConvertible (sbkType : Option PyTypeObject) (pyObj : PyObject) : Bool :=
  PyObject_TypeCheck pyObj sbkType

/-- The function `Converter_CString<CString>::checkType`. -/
def Converter_CString.checkType (pyObj : PyObject) : Bool := String.check pyObj

/-- The function `Converter_CString<CString>::isConvertible`. -/
def Converter_CString.isConvertible (pyObj : PyObject) : Bool := String.isConvertible pyObj

/-- The function `ValueTypeConverter<T>::checkType`. -/
def ValueTypeConverter.checkType (sbkType : Option PyTypeObject) (pyObj : PyObject) : Bool :=
  PyObject_TypeCheck pyObj sbkType

/-- The function `ValueTypeConverter<T>::isConvertible`; the second argument
stands for `ObjectType::isExternalConvertible(shiboType, _)`, the registry of
implicit conversions kept outside this file. -/
def ValueTypeConverter.isConvertible (sbkType : Option PyTypeObject)
    (isExternalConvertible : PyObject → Bool) (pyobj : PyObject) : Bool :=
  if PyObject_TypeCheck pyobj sbkType then true
  else isExternalConvertible pyobj

/-- The object `Py_None`: the comparison `pyObj == Py_None`. -/
def isPyNone (pyObj : PyObject) : Bool :=
  match pyObj with
  | .none => true
  | _ => false

/-- The function `ObjectTypeConverter<T>::checkType`. -/
def ObjectTypeConverter.checkType (sbkType : Option PyTypeObject) (pyObj : PyObject) : Bool :=
  isPyNone pyObj || PyObject_TypeCheck pyObj sbkType

/-- The function `ObjectTypeConverter<T>::isConvertible`. -/
def ObjectTypeConverter.isConvertible (sbkType : Option PyTypeObject) (pyObj : PyObject) : Bool :=
  isPyNone pyObj || PyObject_TypeCheck pyObj sbkType

/-- The function `ObjectTypeReferenceConverter<T>::checkType`. -/
def ObjectTypeReferenceConverter.checkType (sbkType : Option PyTypeObject) (pyObj : PyObject) :
    Bool :=
  PyObject_TypeCheck pyObj sbkType

/-- The function `ObjectTypeReferenceConverter<T>::isConvertible`. -/
def ObjectTypeReferenceConverter.isConvertible (sbkType : Option PyTypeObject)
    (pyObj : PyObject) : Bool :=
  PyObject_TypeCheck pyObj sbkType

/-! ## Container converters -/

/-- The `for` loop of `StdListConverter::isConvertible`: `n` iterations are left
and `i` is the index variable, which stays below `max` and so in the range of
`int`. -/
def StdListConverter.isConvertible.loop (elem : PyObject → Bool) (pyObj : PyObject) :
    Nat → Nat → Bool
  | 0, _ => true
  | n + 1, i =>
    match PySequence_GetItem pyObj i with
    | some item => if !elem item then false else loop elem pyObj n (i + 1)
    | Option.none => false

/-- The function `StdListConverter<StdList>::isConvertible`; `sbkType` is the
value of `SbkType<StdList>()` and `elem` is
`Converter<StdList::value_type>::isConvertible`. -/
def StdListConverter.isConvertible (sbkType : Option PyTypeObject) (elem : PyObject → Bool)
    (pyObj : PyObject) : Bool :=
  if PyObject_TypeCheck pyObj sbkType then true
  else if (sbkType.isSome && Object.checkType pyObj) || !PySequence_Check pyObj then false
  else
    let max := castInt (PySequence_Length pyObj).value
    StdListConverter.isConvertible.loop elem pyObj max.toNat 0

/-- The function `StdListConverter<StdList>::checkType`. -/
def StdListConverter.checkType (sbkType : Option PyTypeObject) (elem : PyObject → Bool)
    (pyObj : PyObject) : Bool :=
  StdListConverter.isConvertible sbkType elem pyObj

/-- Modelled from the spec: the C-API function `PyList_New`: a new list with
the given number of item slots, or the null pointer (`none`) for a negative
size. -/
def PyList_New (size : Int) : Option Nat :=
  if size < 0 then Option.none else some size.toNat

/-- The loop of `StdListConverter::toPython` over the elements still to be
visited: `idx` is the index variable and `items` the slots filled so far.
`PyList_SET_ITEM` at an index that is no slot of the list has no defined
result. -/
def StdListConverter.toPython.loop {α : Type} (E : Converter α) (slots : Nat) :
    List α → Nat → List PyObject → Option (List PyObject)
  | [], _, items => some items
  | vh :: rest, idx, items =>
    if idx < slots then loop E slots rest (idx + 1) (items ++ [E.toPython vh])
    else Option.none

/-- The function `StdListConverter<StdList>::toPython`:
`PyList_New((int) cppobj.size())`, then the loop.  When `PyList_New` returns the
null pointer the loop stores through it, with no defined result (`none`). -/
def StdListConverter.toPython {α : Type} (E : Converter α) (cppobj : List α) :
    Option PyObject :=
  match PyList_New (castInt cppobj.length) with
  | some slots =>
    (StdListConverter.toPython.loop E slots cppobj 0 []).map fun items => PyObject.list items
  | Option.none => Option.none

/-- The `for` loop of `StdListConverter::toCpp`: `n` iterations are left, `i` is
the index variable, an `int`, and `result` the container built so far.  The
increment `i++` at `INT_MAX` overflows, with no defined result. -/
def StdListConverter.toCpp.loop {α : Type} (E : Converter α) (pyobj : PyObject) :
    Nat → Nat → CppResult (List α) → Option (CppResult (List α))
  | 0, _, result => some result
  | n + 1, i, result =>
    match PySequence_GetItem pyobj i with
    | Option.none => Option.none
    | some pyItem =>
      match E.toCpp pyItem with
      | Option.none => Option.none
      | some r =>
        if INT_MAX ≤ (i : Int) then Option.none
        else
          loop E pyobj n (i + 1)
            ⟨result.value ++ [r.value], PyErr_merge result.error r.error⟩

/-- The function `StdListConverter<StdList>::toCpp`.  `deref` reads the native
container at an address (the dereference of the pointer `Object::cppPointer`
returns). -/
def StdListConverter.toCpp {α : Type} (sbkType : Option PyTypeObject)
    (deref : Nat → Option (List α)) (E : Converter α) (pyobj : PyObject) :
    Option (CppResult (List α)) :=
  if PyObject_TypeCheck pyobj sbkType then
    match Object.cppPointer pyobj with
    | some p => (deref p).map fun c => ⟨c, Option.none⟩
    | Option.none => Option.none
  else
    let size := PySequence_Length pyobj
    StdListConverter.toCpp.loop E pyobj size.value.toNat 0 ⟨[], size.error⟩

/-- The function `StdPairConverter<StdPair>::isConvertible`; `first` and
`second` are the `isConvertible` of the converters of the two member types. -/
def StdPairConverter.isConvertible (sbkType : Option PyTypeObject)
    (first second : PyObject → Bool) (pyObj : PyObject) : Bool :=
  if PyObject_TypeCheck pyObj sbkType then true
  else if (sbkType.isSome && Object.checkType pyObj) || !PySequence_Check pyObj
      || decide ((PySequence_Length pyObj).value ≠ 2) then false
  else
    match PySequence_GetItem pyObj 0, PySequence_GetItem pyObj 1 with
    | some item1, some item2 =>
      if !first item1 && !second item2 then false else true
    | _, _ => false

/-- The function `StdPairConverter<StdPair>::toPython`. -/
def StdPairConverter.toPython {α β : Type} (F : Converter α) (S : Converter β)
    (cppobj : α × β) : PyObject :=
  .tuple [F.toPython cppobj.1, S.toPython cppobj.2]

/-- The function `StdPairConverter<StdPair>::toCpp`. -/
def StdPairConverter.toCpp {α β : Type} (F : Converter α) (S : Converter β)
    (pyobj : PyObject) : Option (CppResult (α × β)) :=
  match PySequence_GetItem pyobj 0, PySequence_GetItem pyobj 1 with
  | some pyFirst, some pySecond =>
    match F.toCpp pyFirst, S.toCpp pySecond with
    | some a, some b => some ⟨(a.value, b.value), PyErr_merge a.error b.error⟩
    | _, _ => Option.none
  | _, _ => Option.none

/-- The template `StdPairConverter<StdPair>`. -/
def StdPairConverter {α β : Type} (sbkType : Option PyTypeObject) (F : Converter α)
    (S : Converter β) : Converter (α × β) where
  checkType pyObj := StdPairConverter.isConvertible sbkType F.isConvertible S.isConvertible pyObj
  isConvertible pyObj := StdPairConverter.isConvertible sbkType F.isConvertible S.isConvertible pyObj
  toPython cppobj := StdPairConverter.toPython F S cppobj
  toCpp pyobj := StdPairConverter.toCpp F S pyobj

/-- The `while (PyDict_Next(...))` loop of `StdMapConverter::isConvertible` over
the entries still to be visited. -/
def StdMapConverter.isConvertible.loop (key mapped : PyObject → Bool) :
    List (PyObject × PyObject) → Bool
  | [] => true
  | (k, v) :: rest =>
    if !key k || !mapped v then false else loop key mapped rest

/-- The function `StdMapConverter<StdMap>::isConvertible`. -/
def StdMapConverter.isConvertible (sbkType : Option PyTypeObject) (key mapped : PyObject → Bool)
    (pyObj : PyObject) : Bool :=
  if PyObject_TypeCheck pyObj sbkType then true
  else if (sbkType.isSome && Object.checkType pyObj) || !PyDict_Check pyObj then false
  else StdMapConverter.isConvertible.loop key mapped (PyDict_entries pyObj)

/-- A native `std::map`: its entries in increasing key order. -/
abbrev StdMap (κ ν : Type) := List (κ × ν)

/-- The member `std::map::insert(value_type)`: the entry is added at its place
in key order unless the map already holds an entry with an equivalent key, in
which case the map is left as it is. -/
def StdMap.insert {κ ν : Type} [LinearOrder κ] : StdMap κ ν → κ × ν → StdMap κ ν
  | [], kv => [kv]
  | e :: rest, kv =>
    if kv.1 < e.1 then kv :: e :: rest
    else if e.1 < kv.1 then e :: StdMap.insert rest kv
    else e :: rest

/-- The `while (PyDict_Next(...))` loop of `StdMapConverter::toCpp` over the
entries still to be visited; `result` is the map built so far. -/
def StdMapConverter.toCpp.loop {κ ν : Type} [LinearOrder κ] (K : Converter κ) (V : Converter ν) :
    List (PyObject × PyObject) → CppResult (StdMap κ ν) → Option (CppResult (StdMap κ ν))
  | [], result => some result
  | (key, value) :: rest, result =>
    match K.toCpp key, V.toCpp value with
    | some k, some v =>
      loop K V rest
        ⟨StdMap.insert result.value (k.value, v.value),
          PyErr_merge (PyErr_merge result.error k.error) v.error⟩
    | _, _ => Option.none

/-- The function `StdMapConverter<StdMap>::toCpp`. -/
def StdMapConverter.toCpp {κ ν : Type} [LinearOrder κ] (K : Converter κ) (V : Converter ν)
    (pyobj : PyObject) : Option (CppResult (StdMap κ ν)) :=
  StdMapConverter.toCpp.loop K V (PyDict_entries pyobj) ⟨[], Option.none⟩

/-- The function `StdMapConverter<StdMap>::toPython`. -/
def StdMapConverter.toPython {κ ν : Type} (K : Converter κ) (V : Converter ν)
    (cppobj : StdMap κ ν) : PyObject :=
  .dict (cppobj.map fun e => (K.toPython e.1, V.toPython e.2))

/-- The template `StdMapConverter<StdMap>`. -/
def StdMapConverter {κ ν : Type} [LinearOrder κ] (sbkType : Option PyTypeObject)
    (K : Converter κ) (V : Converter ν) : Converter (StdMap κ ν) where
  checkType pyObj := StdMapConverter.isConvertible sbkType K.isConvertible V.isConvertible pyObj
  isConvertible pyObj := StdMapConverter.isConvertible sbkType K.isConvertible V.isConvertible pyObj
  toPython cppobj := StdMapConverter.toPython K V cppobj
  toCpp pyobj := StdMapConverter.toCpp K V pyobj

/-! ## The family of converters

Every converter the file defines or lets a user instantiate, as a term: the
leaves are the specialisations for the primitive, string, enumeration and class
types, the other constructors are the templates that take converters as
arguments. -/

/-- Instantiations of `Converter<T>` that declare `checkType` and
`isConvertible`. -/
inductive Policy where
  /-- The specialisation `Converter<bool>` -/
  | bool
  /-- The template `Converter_PyInt<T>` -/
  | pyInt (T : CInt)
  /-- The template `Converter_PyULongInt<T>` -/
  | pyULongInt (T : CInt)
  /-- The template `CharConverter<T>` -/
  | charConverter (T : CInt)
  /-- The specialisation `Converter<char>` -/
  | char
  /-- The template `Converter_PyFloat<T>` -/
  | pyFloat
  /-- The template `EnumConverter<CppEnum>`, with the value of `SbkType<CppEnum>()` -/
  | enum (sbkType : Option PyTypeObject)
  /-- The specialisation `Converter<const char*>` -/
  | cString
  /-- The specialisation `Converter<std::string>` -/
  | stdString
  /-- The specialisation `Converter<void*>` -/
  | voidPtr
  /-- The specialisation `Converter<PyObject*>` -/
  | pyObjectPtr
  /-- The template `ValueTypeConverter<T>`, with `SbkType<T>()` and the registry test -/
  | valueType (sbkType : Option PyTypeObject) (isExternalConvertible : PyObject → Bool)
  /-- The template `ObjectTypeConverter<T>`, with `SbkType<T>()` -/
  | objectType (sbkType : Option PyTypeObject)
  /-- The template `ObjectTypeReferenceConverter<T>`, with `SbkType<T>()` -/
  | objectTypeReference (sbkType : Option PyTypeObject)
  /-- The template `StdListConverter<StdList>`, with `SbkType<StdList>()` -/
  | stdList (sbkType : Option PyTypeObject) (value_type : Policy)
  /-- The template `StdPairConverter<StdPair>`, with `SbkType<StdPair>()` -/
  | stdPair (sbkType : Option PyTypeObject) (first_type second_type : Policy)
  /-- The template `StdMapConverter<StdMap>`, with `SbkType<StdMap>()` -/
  | stdMap (sbkType : Option PyTypeObject) (key_type mapped_type : Policy)
  /-- The adapter `Converter<T*>` (and `Converter<const T*>`) -/
  | pointer (T : Policy)
  /-- The adapter `Converter<T&>` -/
  | reference (T : Policy)

/-- The value of `SbkType<T>()` for the native type `T` a policy converts: the
specialisations of lines 57 to 70 for the primitive types, the generated
specialisation for class, enumeration and container types, and the null pointer
of the unspecialised template for every other type. -/
def Policy.SbkType : Policy → Option PyTypeObject
  | .bool => some .PyBool_Type
  | .pyInt T => some (SbkType_int T)
  | .pyULongInt T => some (SbkType_int T)
  | .charConverter T => some (SbkType_int T)
  | .char => some (SbkType_int .char)
  | .pyFloat => some .PyFloat_Type
  | .enum tp => tp
  | .cString => Option.none
  | .stdString => Option.none
  | .voidPtr => Option.none
  | .pyObjectPtr => Option.none
  | .valueType tp _ => tp
  | .objectType _ => Option.none
  | .objectTypeReference _ => Option.none
  | .stdList tp _ => tp
  | .stdPair tp _ _ => tp
  | .stdMap tp _ _ => tp
  | .pointer _ => Option.none
  | .reference _ => Option.none

/-- The function `isConvertible` of a policy. -/
def Policy.isConvertible (P : Platform) : Policy → PyObject → Bool
  | .bool, x => (Converter_bool P).isConvertible x
  | .pyInt T, x => (Converter_PyInt P T).isConvertible x
  | .pyULongInt T, x => (Converter_PyULongInt P T).isConvertible x
  | .charConverter T, x => (CharConverter P T).isConvertible x
  | .char, x => (Converter_char P).isConvertible x
  | .pyFloat, x => Converter_PyFloat.isConvertible x
  | .enum tp, x => EnumConverter.isConvertible tp x
  | .cString, x => Converter_CString.isConvertible x
  | .stdString, x => Converter_CString.isConvertible x
  | .voidPtr, _ => true
  | .pyObjectPtr, x => ObjectTypeConverter.isConvertible Option.none x
  | .valueType tp ext, x => ValueTypeConverter.isConvertible tp ext x
  | .objectType tp, x => ObjectTypeConverter.isConvertible tp x
  | .objectTypeReference tp, x => ObjectTypeReferenceConverter.isConvertible tp x
  | .stdList tp e, x => StdListConverter.isConvertible tp (fun y => Policy.isConvertible P e y) x
  | .stdPair tp a b, x =>
    StdPairConverter.isConvertible tp (fun y => Policy.isConvertible P a y)
      (fun y => Policy.isConvertible P b y) x
  | .stdMap tp k v, x =>
    StdMapConverter.isConvertible tp (fun y => Policy.isConvertible P k y)
      (fun y => Policy.isConvertible P v y) x
  | .pointer T, x => isPyNone x || PyObject_TypeCheck x T.SbkType
  | .reference T, x => Policy.isConvertible P T x

/-- The function `checkType` of a policy. -/
def Policy.checkType (P : Platform) : Policy → PyObject → Bool
  | .bool, x => (Converter_bool P).checkType x
  | .pyInt T, x => (Converter_PyInt P T).checkType x
  | .pyULongInt T, x => (Converter_PyULongInt P T).checkType x
  | .charConverter T, x => (CharConverter P T).checkType x
  | .char, x => (Converter_char P).checkType x
  | .pyFloat, x => Converter_PyFloat.checkType x
  | .enum tp, x => EnumConverter.checkType tp x
  | .cString, x => Converter_CString.checkType x
  | .stdString, x => Converter_CString.checkType x
  | .voidPtr, _ => false
  | .pyObjectPtr, x => ObjectTypeConverter.checkType Option.none x
  | .valueType tp _, x => ValueTypeConverter.checkType tp x
  | .objectType tp, x => ObjectTypeConverter.checkType tp x
  | .objectTypeReference tp, x => ObjectTypeReferenceConverter.checkType tp x
  | .stdList tp e, x => Policy.isConvertible P (.stdList tp e) x
  | .stdPair tp a b, x => Policy.isConvertible P (.stdPair tp a b) x
  | .stdMap tp k v, x => Policy.isConvertible P (.stdMap tp k v) x
  | .pointer T, x => Policy.checkType P T x
  | .reference T, x => Policy.checkType P T x

/-- The pointer adapter is applied to the policy of a type whose `checkType`
accepts instances of `SbkType<T>()` only: `bool`, the integer and floating
types, enumerations, value types, `void*` and `PyObject*`. -/
def Policy.exactPointee : Policy → Bool
  | .bool => true
  | .pyInt _ => true
  | .pyULongInt _ => true
  | .pyFloat => true
  | .enum _ => true
  | .valueType _ _ => true
  | .voidPtr => true
  | .pyObjectPtr => true
  | _ => false

/-- Every use of the pointer adapter inside the policy is over an
`exactPointee`. -/
def Policy.pointersExact : Policy → Bool
  | .stdList _ e => e.pointersExact
  | .stdPair _ a b => a.pointersExact && b.pointersExact
  | .stdMap _ k v => k.pointersExact && v.pointersExact
  | .pointer T => T.exactPointee && T.pointersExact
  | .reference T => T.pointersExact
  | _ => true

/-- The value of `SbkType<T>()` for a native container type is the null pointer
of the unspecialised template or a generated wrapper type. -/
def isContainerSbkType : Option PyTypeObject → Bool
  | Option.none => true
  | some (.SbkObject _ _) => true
  | some _ => false

/-! ## Floating-point overflow checkers and string values -/

/-- Comparison `a < b` of two `double` values; a comparison with not-a-number is
false. -/
def Double.lt : Double → Double → Bool
  | .nan, _ => false
  | _, .nan => false
  | .inf n1, .inf n2 => n1 && !n2
  | .inf n, .finite _ _ => n
  | .finite _ _, .inf n => !n
  | .finite m1 e1, .finite m2 e2 =>
    decide (m1 * 2 ^ (e1 - min e1 e2).toNat < m2 * 2 ^ (e2 - min e1 e2).toNat)

/-- Negation of a `double`. -/
def Double.neg : Double → Double
  | .finite m e => .finite (-m) e
  | .inf n => .inf (!n)
  | .nan => .nan

/-- The value of `std::numeric_limits<float>::min()`: the smallest positive
normalised `float`, `2 ^ -126`. -/
def FLT_MIN : Double := .finite 1 (-126)

/-- The value of `std::numeric_limits<float>::max()`: the largest finite
`float`, `(2 ^ 24 - 1) * 2 ^ 104`. -/
def FLT_MAX : Double := .finite 16777215 104

/-- The specialisation `OverFlowChecker<double, true>::check`. -/
def OverFlowChecker_double.check (_value : Double) : Bool := false

/-- The specialisation `OverFlowChecker<float, true>::check`. -/
def OverFlowChecker_float.check (value : Double) : Bool :=
  Double.lt value FLT_MIN || Double.lt FLT_MAX value

/-- The bytes of a null-terminated buffer up to the terminator: what
`std::string(const char*)` copies and what `c_str()` exposes. -/
def cstr (s : List Nat) : List Nat := s.takeWhile (fun b => decide (b ≠ 0))

/-- The specialisation `Converter<std::string>`; a native string is the list of
its bytes.  `toCpp` of the no-value sentinel constructs a string from the null
pointer, and so does `toCpp` of an object `toCString` has no buffer for. -/
def Converter_stdString : Converter (List Nat) where
  checkType pyObj := Converter_CString.checkType pyObj
  isConvertible pyObj := Converter_CString.isConvertible pyObj
  toPython cppObj := String.fromCString (cstr cppObj)
  toCpp pyobj :=
    if isPyNone pyobj then Option.none
    else
      match String.toCString pyobj with
      | some s => some ⟨cstr s, Option.none⟩
      | Option.none => Option.none

/-! ## Wrapper objects, the binding manager and native memory

The conversions to the dynamic side of class-typed values act on the state of
the dynamic runtime: the wrapper objects that exist and the registry of the
binding manager.  A wrapper is identified by its address. -/

/-- The fields of a wrapper object (`SbkObject`) the converters read or set. -/
structure SbkObject where
  ob_refcnt : Nat
  ob_type : Option PyTypeObject
  cptr : Nat
  hasOwnership : Bool
  deriving DecidableEq, Repr

/-- A `PyObject*` returned by a conversion of a class-typed value: `Py_None` or
the wrapper at an address. -/
inductive PyObjectPtr where
  | Py_None
  | sbkObject (address : Nat)
  deriving DecidableEq, Repr

/-- The wrapper objects of the runtime (the wrapper at address `a` is
`objects[a]`) and the registry of the binding manager, a map from native
addresses to wrapper addresses. -/
structure BindingState where
  objects : List SbkObject
  wrapperMapper : List (Nat × Nat)
  deriving DecidableEq, Repr

/-- Modelled from the spec: `BindingManager::retrieveWrapper` of
`bindingmanager.h`, the live wrapper registered for a native pointer, if one
exists. -/
def BindingManager.retrieveWrapper (st : BindingState) (cptr : Nat) : Option Nat :=
  (st.wrapperMapper.find? fun e => e.1 == cptr).map Prod.snd

/-- Modelled from the spec: `BindingManager::registerWrapper`, which maps the
native pointer to the wrapper; the registry is keyed by the native pointer. -/
def BindingManager.registerWrapper (st : BindingState) (address cptr : Nat) : BindingState :=
  { st with wrapperMapper := (cptr, address) :: st.wrapperMapper.filter fun e => e.1 != cptr }

/-- Modelled from the spec: the C-API operation `Py_INCREF`, one more reference
to the object at the address. -/
def Py_INCREF (st : BindingState) (address : Nat) : BindingState :=
  match st.objects.get? address with
  | some o => { st with objects := st.objects.set address { o with ob_refcnt := o.ob_refcnt + 1 } }
  | Option.none => st

/-- Modelled from the spec: `Object::newObject` of `basewrapper.h`: allocate a
dynamic handle of the given type identity with one reference, store the native
pointer and the ownership flag in it and register it with the binding manager.
The choice of a more derived wrapper type from `typeName` is left out. -/
def Object.newObject (st : BindingState) (instanceType : Option PyTypeObject) (cptr : Nat)
    (hasOwnership : Bool) (_isExactType : Bool) (_typeName : Option Nat) : Nat × BindingState :=
  let address := st.objects.length
  (address,
    BindingManager.registerWrapper
      { st with objects := st.objects ++ [⟨1, instanceType, cptr, hasOwnership⟩] } address cptr)

/-- The function template `createWrapper<T>`; `typeid_name` stands for
`typeid(*cppobj).name()` and `sbkType` for `SbkType<T>()`.  The C++ default
arguments `hasOwnership = false` and `isExactType = false` are passed
explicitly by the callers below. -/
def createWrapper (typeid_name : Nat → Nat) (st : BindingState) (sbkType : Option PyTypeObject)
    (cppobj : Nat) (hasOwnership : Bool) (isExactType : Bool) : Nat × BindingState :=
  let typeName := if !isExactType then some (typeid_name cppobj) else Option.none
  Object.newObject st sbkType cppobj hasOwnership isExactType typeName

/-- The function `ObjectTypeConverter<T>::toPython(const T*)`; the null pointer
is the address `0`. -/
def ObjectTypeConverter.toPython (typeid_name : Nat → Nat) (st : BindingState)
    (sbkType : Option PyTypeObject) (cppobj : Nat) : PyObjectPtr × BindingState :=
  if cppobj = 0 then (.Py_None, st)
  else
    match BindingManager.retrieveWrapper st cppobj with
    | some pyobj => (.sbkObject pyobj, Py_INCREF st pyobj)
    | Option.none =>
      let r := createWrapper typeid_name st sbkType cppobj false false
      (.sbkObject r.1, r.2)

/-- The function `Converter<T*>::toPython(const T*)`. -/
def Converter_pointer.toPython (typeid_name : Nat → Nat) (st : BindingState)
    (sbkType : Option PyTypeObject) (cppobj : Nat) : PyObjectPtr × BindingState :=
  if cppobj = 0 then (.Py_None, st)
  else
    match BindingManager.retrieveWrapper st cppobj with
    | some pyobj => (.sbkObject pyobj, Py_INCREF st pyobj)
    | Option.none =>
      let r := createWrapper typeid_name st sbkType cppobj false false
      (.sbkObject r.1, r.2)

/-- Native objects of type `α` allocated with `new`: the object at the address
`p` (never `0`) is `mem[p - 1]`. -/
abbrev NativeHeap (α : Type) := List α

/-- The expression `new T(v)`: a fresh address holding a copy of `v`. -/
def NativeHeap.new {α : Type} (mem : NativeHeap α) (v : α) : Nat × NativeHeap α :=
  (mem.length + 1, mem ++ [v])

/-- The expression `*p`: the object at the address, and nothing for the null
pointer or an address never allocated. -/
def NativeHeap.deref {α : Type} (mem : NativeHeap α) (p : Nat) : Option α :=
  if p = 0 then Option.none else mem.get? (p - 1)

/-- The function `ValueTypeConverter<T>::toPython(const T&)`:
`createWrapper<T>(new T(cppobj), true, true)`. -/
def ValueTypeConverter.toPython {α : Type} (typeid_name : Nat → Nat) (st : BindingState)
    (mem : NativeHeap α) (sbkType : Option PyTypeObject) (cppobj : α) :
    PyObjectPtr × BindingState × NativeHeap α :=
  let copy := NativeHeap.new mem cppobj
  let obj := createWrapper typeid_name st sbkType copy.1 true true
  (.sbkObject obj.1, obj.2, copy.2)

/-- Every address the registry holds is the address of a wrapper object. -/
def BindingState.valid (st : BindingState) : Bool :=
  st.wrapperMapper.all fun e => decide (e.2 < st.objects.length)

/-- The registry holds at most one wrapper for a native pointer. -/
def BindingState.unique (st : BindingState) : Bool :=
  decide ((st.wrapperMapper.map Prod.fst).Nodup)

/-- The function `Converter<T*>::toCpp`; `E` is `Converter<T>` and `mem` the
native memory in which `new T(...)` allocates.  The result is the returned
pointer, the pending error and the memory after the call; `none` is the
`assert(false)` of the last case, and the result of the first case for an
object that passes the type test and is no wrapper: it is read as one. -/
def Converter_pointer.toCpp {α : Type} (sbkType : Option PyTypeObject) (E : Converter α)
    (mem : NativeHeap α) (pyobj : PyObject) : Option (CppResult Nat × NativeHeap α) :=
  if PyObject_TypeCheck pyobj sbkType then
    match Object.cppPointer pyobj with
    | some p => some (⟨p, Option.none⟩, mem)
    | Option.none => Option.none
  else if E.isConvertible pyobj then
    match E.toCpp pyobj with
    | some r =>
      let copy := NativeHeap.new mem r.value
      some (⟨copy.1, r.error⟩, copy.2)
    | Option.none => Option.none
  else if isPyNone pyobj then
    some (⟨0, Option.none⟩, mem)
  else
    Option.none

/-- The function `ObjectTypeConverter<T>::toCpp`; `hasCast` and `cast` stand for
`ObjectType::hasCast` and `ObjectType::cast` of the type registry.  An object
that is neither `Py_None` nor a wrapper is reinterpreted as a wrapper, which has
no defined result. -/
def ObjectTypeConverter.toCpp {α : Type} (hasCast : PyTypeObject → Bool) (cast : PyObject → Nat)
    (mem : NativeHeap α) (pyobj : PyObject) : Option (CppResult Nat × NativeHeap α) :=
  if isPyNone pyobj then some (⟨0, Option.none⟩, mem)
  else if !Object.checkType pyobj then Option.none
  else if hasCast pyobj.ob_type then some (⟨cast pyobj, Option.none⟩, mem)
  else
    match Object.cppPointer pyobj with
    | some p => some (⟨p, Option.none⟩, mem)
    | Option.none => Option.none

/-- The function `Converter<T&>::toCpp`: `*Converter<T*>::toCpp(pyobj)`;
`pointerToCpp` is the `toCpp` of the specialisation `Converter<T*>` in force. -/
def Converter_reference.toCpp {α : Type}
    (pointerToCpp : NativeHeap α → PyObject → Option (CppResult Nat × NativeHeap α))
    (mem : NativeHeap α) (pyobj : PyObject) : Option (CppResult α × NativeHeap α) :=
  match pointerToCpp mem pyobj with
  | some (t, mem') =>
    match NativeHeap.deref mem' t.value with
    | some v => some (⟨v, t.error⟩, mem')
    | Option.none => Option.none
  | Option.none => Option.none

/-- The function `ObjectTypeReferenceConverter<T>::toCpp`: the pointer
conversion, `assert(t)`, then `*t`. -/
def ObjectTypeReferenceConverter.toCpp {α : Type}
    (pointerToCpp : NativeHeap α → PyObject → Option (CppResult Nat × NativeHeap α))
    (mem : NativeHeap α) (pyobj : PyObject) : Option (CppResult α × NativeHeap α) :=
  match pointerToCpp mem pyobj with
  | some (t, mem') =>
    if t.value = 0 then Option.none
    else
      match NativeHeap.deref mem' t.value with
      | some v => some (⟨v, t.error⟩, mem')
      | Option.none => Option.none
  | Option.none => Option.none

/-- The specialisation `Converter<void*>`.  A native `void*` is the null pointer
(`none`) or the address of a dynamic object, which `toCpp` hands through. -/
def Converter_voidPtr : Converter (Option PyObject) where
  checkType _ := false
  isConvertible _ := true
  toPython cppobj :=
    match cppobj with
    | Option.none => PyObject.none
    | some result => result
  toCpp pyobj := some ⟨some pyobj, Option.none⟩

/-! ## Integer conversions: range lemmas -/

/-- A value in the range of `T` is left unchanged by `static_cast<T>`. -/
theorem static_cast_of_inRange (P : Platform) (T : CInt) (v : Int) (h : T.inRange P v = true) :
    static_cast P T v = v := by
  cases T <;> rcases P with ⟨l, c, f⟩ <;> cases l <;> cases c <;>
    simp [CInt.inRange, CInt.is_signed, CInt.min, CInt.max, CInt.bits] at h <;>
    simp [static_cast, CInt.is_signed, CInt.bits] <;> omega

/-- On a `PY_LONG_LONG` value the checker is the negation of the range test. -/
theorem OverFlowChecker_check_eq (P : Platform) (T : CInt) (v : Int)
    (hlo : LLONG_MIN ≤ v) (hhi : v ≤ LLONG_MAX) :
    OverFlowChecker.check P T v = !T.inRange P v := by
  simp only [LLONG_MIN, LLONG_MAX] at hlo hhi
  norm_num at hlo hhi
  rw [Bool.eq_iff_iff]
  cases T <;> rcases P with ⟨l, c, f⟩ <;> cases l <;> cases c <;>
    simp [OverFlowChecker.check, CInt.inRange, CInt.is_signed, CInt.min, CInt.max, CInt.bits]
      <;> omega

/-- The range of a type that fits `PY_LONG_LONG` lies in the range of
`PY_LONG_LONG`. -/
theorem inRange_LLONG (P : Platform) (T : CInt) (v : Int) (hfit : T.max P ≤ LLONG_MAX)
    (h : T.inRange P v = true) : LLONG_MIN ≤ v ∧ v ≤ LLONG_MAX := by
  simp only [LLONG_MIN, LLONG_MAX] at hfit ⊢
  norm_num at hfit ⊢
  cases T <;> rcases P with ⟨l, c, f⟩ <;> cases l <;> cases c <;>
    simp [CInt.inRange, CInt.is_signed, CInt.min, CInt.max, CInt.bits] at hfit h ⊢ <;> omega

/-- Unfolding of `PyLong_AsLongLong` on an integer object. -/
theorem PyLong_AsLongLong_int (v : Int) :
    PyLong_AsLongLong (.int v) =
      if decide (LLONG_MIN ≤ v) && decide (v ≤ LLONG_MAX) then ⟨v, Option.none⟩
      else ⟨-1, some .OverflowError⟩ := rfl

/-- The integer path shared by `Converter_PyInt::toCpp` and
`CharConverter::toCpp`: read the object as `PY_LONG_LONG`, run the checker, cast.
For a target that fits `PY_LONG_LONG`, OverflowError is pending exactly when the
integer is out of the range of the target, and an integer in range is returned
unchanged with no error. -/
theorem intPath_spec (P : Platform) (T : CInt) (v : Int) (hfit : T.max P ≤ LLONG_MAX) :
    ((if OverFlowChecker.check P T (PyLong_AsLongLong (.int v)).value = true
        then some PyExc.OverflowError else (PyLong_AsLongLong (.int v)).error)
      = some PyExc.OverflowError ↔ T.inRange P v = false) ∧
    (T.inRange P v = true →
      (⟨static_cast P T (PyLong_AsLongLong (.int v)).value,
        if OverFlowChecker.check P T (PyLong_AsLongLong (.int v)).value = true
          then some PyExc.OverflowError else (PyLong_AsLongLong (.int v)).error⟩ : CppResult Int)
        = ⟨v, Option.none⟩) := by
  rw [PyLong_AsLongLong_int]
  by_cases hv : LLONG_MIN ≤ v ∧ v ≤ LLONG_MAX
  · have hd : (decide (LLONG_MIN ≤ v) && decide (v ≤ LLONG_MAX)) = true := by
      simp only [Bool.and_eq_true, decide_eq_true_eq]; exact hv
    rw [if_pos hd]
    refine ⟨?_, ?_⟩
    · show (if OverFlowChecker.check P T v = true then some PyExc.OverflowError else Option.none)
          = some PyExc.OverflowError ↔ _
      rw [OverFlowChecker_check_eq P T v hv.1 hv.2]
      cases T.inRange P v <;> simp
    · intro hr
      show CppResult.mk (static_cast P T v)
        (if OverFlowChecker.check P T v = true then some PyExc.OverflowError else Option.none) = _
      rw [OverFlowChecker_check_eq P T v hv.1 hv.2, static_cast_of_inRange P T v hr, hr]
      rfl
  · have hd : ¬ ((decide (LLONG_MIN ≤ v) && decide (v ≤ LLONG_MAX)) = true) := by
      simp only [Bool.and_eq_true, decide_eq_true_eq]; exact hv
    rw [if_neg hd]
    have hnr : T.inRange P v = false := by
      cases h : T.inRange P v
      · rfl
      · exact absurd (inRange_LLONG P T v hfit h) hv
    refine ⟨?_, ?_⟩
    · show (if OverFlowChecker.check P T (-1) = true then some PyExc.OverflowError
          else some PyExc.OverflowError) = some PyExc.OverflowError ↔ _
      simp [hnr]
    · intro hr
      rw [hnr] at hr
      exact absurd hr (by decide)

/-- For every target that fits `PY_LONG_LONG` (every instantiation of
`Converter_PyInt` except a 64-bit `unsigned long`) and every dynamic integer,
`toCpp` returns, raises OverflowError exactly when the integer is out of range,
and returns an integer in range unchanged with no error. -/
theorem Converter_PyInt_toCpp_int (P : Platform) (T : CInt) (v : Int)
    (hfit : T.max P ≤ LLONG_MAX) :
    ∃ r, Converter_PyInt.toCpp P T (.int v) = some r ∧
      (r.error = some PyExc.OverflowError ↔ T.inRange P v = false) ∧
      (T.inRange P v = true → r = ⟨v, Option.none⟩) := by
  have hf : PyFloat_Check (.int v) = false := rfl
  simp only [Converter_PyInt.toCpp, hf]
  exact ⟨_, rfl, (intPath_spec P T v hfit).1, (intPath_spec P T v hfit).2⟩

/-- Every integer type other than the 64-bit unsigned ones fits
`PY_LONG_LONG`. -/
theorem CInt.max_le_LLONG_MAX (P : Platform) (T : CInt)
    (h : T ≠ .ullong ∧ (T ≠ .ulong ∨ P.long64 = false)) : T.max P ≤ LLONG_MAX := by
  rcases h with ⟨h1, h2⟩
  simp only [LLONG_MAX]
  cases T <;> rcases P with ⟨l, c, f⟩ <;> cases l <;> cases c <;>
    simp [CInt.is_signed, CInt.max, CInt.bits] at h1 h2 ⊢

/-! ## Claims on the integer converters -/

/-- C1, evaluated where it fails: on a platform whose `long` has 64 bits,
`Converter<unsigned long>::toCpp` of the dynamic integer `max(unsigned long)`
(`2 ^ 64 - 1`) leaves OverflowError pending, although the value is at the exact
boundary of the target range. -/
theorem Converter_ulong_toCpp_max_raises :
    CInt.max LP64 .ulong = 18446744073709551615 ∧
    CInt.inRange LP64 .ulong 18446744073709551615 = true ∧
    (Converter_PyULongInt LP64 .ulong).toCpp (.int 18446744073709551615)
      = some ⟨18446744073709551615, some .OverflowError⟩ := by
  decide

/-- C2: for every integer target type `T` and every signed 64-bit value `v`,
`OverFlowChecker<T>::check(v)` is true exactly when `v < min(T)` or `v > max(T)`
(for an unsigned `T`: `v < 0` or `v > max(T)`), and the checker of the signed
64-bit target is false for every `v`. -/
theorem OverFlowChecker_check_spec (P : Platform) (T : CInt) (v : Int)
    (hlo : LLONG_MIN ≤ v) (hhi : v ≤ LLONG_MAX) :
    (OverFlowChecker.check P T v = true ↔ (v < T.min P ∨ v > T.max P)) ∧
    (T.is_signed P = false →
      (OverFlowChecker.check P T v = true ↔ (v < 0 ∨ v > T.max P))) ∧
    OverFlowChecker.check P .llong v = false := by
  have hmin : T.is_signed P = false → T.min P = 0 := by
    intro hs; simp [CInt.min, hs]
  have key : OverFlowChecker.check P T v = true ↔ (v < T.min P ∨ v > T.max P) := by
    rw [OverFlowChecker_check_eq P T v hlo hhi]
    simp only [CInt.inRange, Bool.not_eq_true', Bool.and_eq_false_iff, decide_eq_false_iff_not,
      not_le, gt_iff_lt]
  refine ⟨key, ?_, rfl⟩
  intro hs
  rw [key, hmin hs]

/-- Witness for C2: the value `300` against
`unsigned char`. -/
theorem OverFlowChecker_check_spec_witness :
    (LLONG_MIN ≤ 300 ∧ (300 : Int) ≤ LLONG_MAX) ∧
    (OverFlowChecker.check ILP32 .uchar 300 = true ↔
      ((300 : Int) < CInt.min ILP32 .uchar ∨ (300 : Int) > CInt.max ILP32 .uchar)) ∧
    (CInt.is_signed ILP32 .uchar = false →
      (OverFlowChecker.check ILP32 .uchar 300 = true ↔
        ((300 : Int) < 0 ∨ (300 : Int) > CInt.max ILP32 .uchar))) ∧
    OverFlowChecker.check ILP32 .llong 300 = false :=
  ⟨by decide, OverFlowChecker_check_spec ILP32 .uchar 300 (by decide) (by decide)⟩

/-- C3, evaluated where it fails: on a platform whose `long` has 64 bits, the
native `unsigned long` value `2 ^ 63` is boxed by `toPython` into the dynamic
integer `2 ^ 63`, and `toCpp` of that object returns `2 ^ 64 - 1` with
OverflowError pending. -/
theorem Converter_ulong_roundtrip_fails :
    CInt.inRange LP64 .ulong 9223372036854775808 = true ∧
    Primitive.toPython LP64 (.int .ulong) 9223372036854775808 = .int 9223372036854775808 ∧
    Primitive.toCpp LP64 (.int .ulong) (Primitive.toPython LP64 (.int .ulong) 9223372036854775808)
      = some ⟨18446744073709551615, some .OverflowError⟩ :=
  ⟨by decide, rfl, by decide⟩

/-- A value in the range of a type not wider than `long` is in the range of
`long`. -/
theorem inRange_long_of_inRange (P : Platform) (T : CInt) (v : Int)
    (hT : T = .short ∨ T = .ushort ∨ T = .int ∨ T = .long)
    (h : T.inRange P v = true) : CInt.inRange P .long v = true := by
  rcases hT with rfl | rfl | rfl | rfl <;> rcases P with ⟨l, c, f⟩ <;> cases l <;> cases c <;>
    simp [CInt.inRange, CInt.is_signed, CInt.min, CInt.max, CInt.bits] at h ⊢ <;> omega

/-- A value in the range of an unsigned type not wider than `unsigned long` is
in the range of `unsigned long`. -/
theorem inRange_ulong_of_inRange (P : Platform) (T : CInt) (v : Int)
    (hT : T = .uint ∨ T = .ulong)
    (h : T.inRange P v = true) : CInt.inRange P .ulong v = true := by
  rcases hT with rfl | rfl <;> rcases P with ⟨l, c, f⟩ <;> cases l <;> cases c <;>
    simp [CInt.inRange, CInt.is_signed, CInt.min, CInt.max, CInt.bits] at h ⊢ <;> omega

/-- Round trip through `Converter_PyInt<T>` for `short`, `unsigned short`,
`int` and `long`. -/
theorem Converter_PyInt_roundtrip (P : Platform) (T : CInt) (v : Int)
    (hT : T = .short ∨ T = .ushort ∨ T = .int ∨ T = .long)
    (h : T.inRange P v = true) :
    (Converter_PyInt P T).toCpp ((Converter_PyInt P T).toPython v) = some ⟨v, Option.none⟩ := by
  have hfit : T.max P ≤ LLONG_MAX :=
    CInt.max_le_LLONG_MAX P T (by rcases hT with rfl | rfl | rfl | rfl <;> simp)
  show Converter_PyInt.toCpp P T (PyInt_FromLong (static_cast P .long v)) = _
  rw [static_cast_of_inRange P .long v (inRange_long_of_inRange P T v hT h)]
  obtain ⟨r, hr, _, hval⟩ := Converter_PyInt_toCpp_int P T v hfit
  show Converter_PyInt.toCpp P T (.int v) = _
  rw [hr, hval h]

/-- Round trip through `Converter_PyULongInt<T>` for `unsigned int`, and for
`unsigned long` when `long` has 32 bits. -/
theorem Converter_PyULongInt_roundtrip (P : Platform) (T : CInt) (v : Int)
    (hT : T = .uint ∨ (T = .ulong ∧ P.long64 = false))
    (h : T.inRange P v = true) :
    (Converter_PyULongInt P T).toCpp ((Converter_PyULongInt P T).toPython v)
      = some ⟨v, Option.none⟩ := by
  have hfit : T.max P ≤ LLONG_MAX :=
    CInt.max_le_LLONG_MAX P T (by rcases hT with rfl | ⟨rfl, h2⟩ <;> simp [*])
  have hT2 : T = .uint ∨ T = .ulong := by rcases hT with h1 | ⟨h1, _⟩ <;> simp [h1]
  show Converter_PyInt.toCpp P T (PyLong_FromUnsignedLong (static_cast P .ulong v)) = _
  rw [static_cast_of_inRange P .ulong v (inRange_ulong_of_inRange P T v hT2 h)]
  obtain ⟨r, hr, _, hval⟩ := Converter_PyInt_toCpp_int P T v hfit
  show Converter_PyInt.toCpp P T (.int v) = _
  rw [hr, hval h]

/-- Round trip of every integer-like primitive type other than a 64-bit
`unsigned long` (and other than the character types, which the round-trip claim
does not list): `toCpp (toPython v)` is `v` with no error pending. -/
theorem Primitive_roundtrip (P : Platform) (T : Primitive) (v : Int)
    (hT : T = .bool ∨ T = .int .short ∨ T = .int .ushort ∨ T = .int .int ∨ T = .int .uint ∨
      T = .int .long ∨ (T = .int .ulong ∧ P.long64 = false) ∨ T = .int .llong ∨ T = .int .ullong)
    (h : T.inRange P v = true) :
    Primitive.toCpp P T (Primitive.toPython P T v) = some ⟨v, Option.none⟩ := by
  rcases hT with rfl | rfl | rfl | rfl | rfl | rfl | ⟨rfl, hl⟩ | rfl | rfl
  · simp only [Primitive.inRange, Bool.or_eq_true, decide_eq_true_eq] at h
    rcases h with rfl | rfl <;> rcases P with ⟨l, c, f⟩ <;> cases l <;> rfl
  · exact Converter_PyInt_roundtrip P .short v (by simp) h
  · exact Converter_PyInt_roundtrip P .ushort v (by simp) h
  · exact Converter_PyInt_roundtrip P .int v (by simp) h
  · exact Converter_PyULongInt_roundtrip P .uint v (by simp) h
  · exact Converter_PyInt_roundtrip P .long v (by simp) h
  · exact Converter_PyULongInt_roundtrip P .ulong v (by simp [hl]) h
  · have h2 : (decide (LLONG_MIN ≤ v) && decide (v ≤ LLONG_MAX)) = true := by
      simp only [Primitive.inRange, CInt.inRange, CInt.min, CInt.max, CInt.is_signed,
        CInt.bits] at h
      simpa [LLONG_MIN, LLONG_MAX] using h
    show some (PyLong_AsLongLong (.int v)) = _
    rw [PyLong_AsLongLong_int, if_pos h2]
  · have h2 : (decide (0 ≤ v) && decide (v ≤ ULLONG_MAX)) = true := by
      simp only [Primitive.inRange, CInt.inRange, CInt.min, CInt.max, CInt.is_signed,
        CInt.bits] at h
      simpa [ULLONG_MAX] using h
    show some (PyLong_AsUnsignedLongLong (.int v)) = _
    simp only [PyLong_AsUnsignedLongLong]
    rw [if_pos h2]

/-- C4: for `signed char` and `unsigned char` and every dynamic integer `v`,
`CharConverter::toCpp` returns, leaves OverflowError pending exactly when `v` is
outside `[-128, 127]` (respectively `[0, 255]`), and otherwise returns `v` with
no error; for `signed char` the input `200` raises OverflowError and the input
`100` round-trips through `toPython` to `100`. -/
theorem CharConverter_toCpp_int (P : Platform) (v : Int) :
    (∃ r, (CharConverter P .schar).toCpp (.int v) = some r ∧
      (r.error = some PyExc.OverflowError ↔ ¬ (-128 ≤ v ∧ v ≤ 127)) ∧
      (-128 ≤ v ∧ v ≤ 127 → r = ⟨v, Option.none⟩)) ∧
    (∃ r, (CharConverter P .uchar).toCpp (.int v) = some r ∧
      (r.error = some PyExc.OverflowError ↔ ¬ (0 ≤ v ∧ v ≤ 255)) ∧
      (0 ≤ v ∧ v ≤ 255 → r = ⟨v, Option.none⟩)) ∧
    (∃ r, (CharConverter P .schar).toCpp (.int 200) = some r ∧
      r.error = some PyExc.OverflowError) ∧
    (CharConverter P .schar).toCpp ((CharConverter P .schar).toPython 100)
      = some ⟨100, Option.none⟩ := by
  have hb : PyBytes_Check (.int v) = false := rfl
  have hi : PyInt_Check (.int v) = true := rfl
  have hs : (CInt.inRange P .schar v = true) ↔ (-128 ≤ v ∧ v ≤ 127) := by
    simp [CInt.inRange, CInt.min, CInt.max, CInt.is_signed, CInt.bits]
  have hu : (CInt.inRange P .uchar v = true) ↔ (0 ≤ v ∧ v ≤ 255) := by
    simp [CInt.inRange, CInt.min, CInt.max, CInt.is_signed, CInt.bits]
  have hfs : CInt.max P .schar ≤ LLONG_MAX := CInt.max_le_LLONG_MAX P .schar (by simp)
  have hfu : CInt.max P .uchar ≤ LLONG_MAX := CInt.max_le_LLONG_MAX P .uchar (by simp)
  refine ⟨?_, ?_, ?_, ?_⟩
  · refine ⟨_, rfl, ?_, ?_⟩
    · rw [← hs, Bool.not_eq_true]
      exact (intPath_spec P .schar v hfs).1
    · intro h
      exact (intPath_spec P .schar v hfs).2 (hs.2 h)
  · refine ⟨_, rfl, ?_, ?_⟩
    · rw [← hu, Bool.not_eq_true]
      exact (intPath_spec P .uchar v hfu).1
    · intro h
      exact (intPath_spec P .uchar v hfu).2 (hu.2 h)
  · exact ⟨_, rfl, rfl⟩
  · rfl

/-! ## Classification: `checkType` and `isConvertible` -/

/-- An object that passes `PyInt_Check` is an integer or a boolean. -/
theorem PyInt_Check_cases (x : PyObject) (h : PyInt_Check x = true) :
    (∃ v, x = .int v) ∨ (∃ b, x = .bool b) := by
  cases x <;> simp [PyInt_Check, PyLong_Check, PyObject_TypeCheck, PyType_IsSubtype,
    PyObject.ob_type] at h ⊢

/-- An object that passes `PyBool_Check` is a boolean. -/
theorem PyBool_Check_cases (x : PyObject) (h : PyBool_Check x = true) : ∃ b, x = .bool b := by
  cases x <;> simp [PyBool_Check] at h ⊢

/-- An object that passes `PyFloat_Check` is a float. -/
theorem PyFloat_Check_cases (x : PyObject) (h : PyFloat_Check x = true) :
    ∃ d, x = .float d := by
  cases x <;> simp [PyFloat_Check, PyObject_TypeCheck, PyType_IsSubtype,
    PyObject.ob_type] at h ⊢

/-- C5, counterexample: for the pointer adapter `Converter<T*>` over the
`signed char` policy the float `1.5` passes `checkType` and fails
`isConvertible`; for the pointer adapter over a sequence converter a plain
list of integers does the same. -/
theorem pointer_checkType_not_isConvertible :
    (Policy.checkType ILP32 (.pointer (.charConverter .schar)) (.float (.finite 3 (-1))) = true ∧
      Policy.isConvertible ILP32 (.pointer (.charConverter .schar)) (.float (.finite 3 (-1)))
        = false) ∧
    (Policy.checkType ILP32 (.pointer (.stdList Option.none (.pyInt .int)))
        (.list [.int 1, .int 2]) = true ∧
      Policy.isConvertible ILP32 (.pointer (.stdList Option.none (.pyInt .int)))
        (.list [.int 1, .int 2]) = false) := by
  decide

/-- The pointer adapter over an exact pointee: what passes the `checkType` of
the pointee is the no-value sentinel or an instance of `SbkType<T>()`. -/
theorem exactPointee_checkType (P : Platform) (T : Policy) (x : PyObject)
    (hT : T.exactPointee = true) (h : T.checkType P x = true) :
    (isPyNone x || PyObject_TypeCheck x T.SbkType) = true := by
  cases T <;> simp [Policy.exactPointee] at hT
  case bool =>
    have h2 : PyBool_Check x = true := h
    rcases PyBool_Check_cases x h2 with ⟨b, rfl⟩
    rfl
  case pyInt T =>
    have h2 : PyInt_Check x = true := h
    rcases PyInt_Check_cases x h2 with ⟨v, rfl⟩ | ⟨b, rfl⟩ <;> cases T <;> rfl
  case pyULongInt T =>
    have h2 : PyInt_Check x = true := h
    rcases PyInt_Check_cases x h2 with ⟨v, rfl⟩ | ⟨b, rfl⟩ <;> cases T <;> rfl
  case pyFloat =>
    have h2 : PyFloat_Check x = true := h
    rcases PyFloat_Check_cases x h2 with ⟨d, rfl⟩
    rfl
  case enum tp =>
    have h2 : PyObject_TypeCheck x tp = true := h
    simp [Policy.SbkType, h2]
  case voidPtr =>
    simp [Policy.checkType] at h
  case pyObjectPtr =>
    have h2 : (isPyNone x || PyObject_TypeCheck x Option.none) = true := h
    simpa [Policy.SbkType] using h2
  case valueType tp ext =>
    have h2 : PyObject_TypeCheck x tp = true := h
    simp [Policy.SbkType, h2]

/-- C5, amended: for every policy of the file in which the pointer adapter
`Converter<T*>` is applied only to a `bool`, integer, floating, enumeration,
value-type, `void*` or `PyObject*` policy, and for every dynamic value `x`,
`checkType(x)` implies `isConvertible(x)`. -/
theorem checkType_imp_isConvertible (P : Platform) (p : Policy) (x : PyObject)
    (hp : p.pointersExact = true) (h : p.checkType P x = true) :
    p.isConvertible P x = true := by
  induction p with
  | bool =>
    have h2 : PyBool_Check x = true := h
    rcases PyBool_Check_cases x h2 with ⟨b, rfl⟩
    rfl
  | pyInt T =>
    have h2 : PyInt_Check x = true := h
    rcases PyInt_Check_cases x h2 with ⟨v, rfl⟩ | ⟨b, rfl⟩ <;> rfl
  | pyULongInt T =>
    have h2 : PyInt_Check x = true := h
    rcases PyInt_Check_cases x h2 with ⟨v, rfl⟩ | ⟨b, rfl⟩ <;> rfl
  | charConverter T => exact h
  | char => exact h
  | pyFloat =>
    have h2 : PyFloat_Check x = true := h
    rcases PyFloat_Check_cases x h2 with ⟨d, rfl⟩
    rfl
  | enum tp => exact h
  | cString => exact h
  | stdString => exact h
  | voidPtr => rfl
  | pyObjectPtr => exact h
  | valueType tp ext =>
    have h2 : PyObject_TypeCheck x tp = true := h
    simp [Policy.isConvertible, ValueTypeConverter.isConvertible, h2]
  | objectType tp => exact h
  | objectTypeReference tp => exact h
  | stdList tp e _ => exact h
  | stdPair tp a b _ _ => exact h
  | stdMap tp k v _ _ => exact h
  | pointer T _ =>
    simp only [Policy.pointersExact, Bool.and_eq_true] at hp
    exact exactPointee_checkType P T x hp.1 h
  | reference T ih =>
    exact ih hp h

/-- Witness for the amended C5: a list of pointers to `int`,
taken by reference, on a list of two integers. -/
theorem checkType_imp_isConvertible_witness :
    (Policy.pointersExact (.reference (.stdList Option.none (.pointer (.pyInt .int)))) = true ∧
      Policy.checkType ILP32 (.reference (.stdList Option.none (.pointer (.pyInt .int))))
        (.list [.int 1, .int 2]) = true) ∧
    Policy.isConvertible ILP32 (.reference (.stdList Option.none (.pointer (.pyInt .int))))
      (.list [.int 1, .int 2]) = true :=
  ⟨by decide, checkType_imp_isConvertible ILP32
    (.reference (.stdList Option.none (.pointer (.pyInt .int)))) (.list [.int 1, .int 2])
    (by decide) (by decide)⟩

/-! ## Container classification -/

/-- The null pointer of the unspecialised `SbkType<T>()` is a legal value. -/
theorem isContainerSbkType_none : isContainerSbkType Option.none = true := rfl

/-- An object that is no wrapper is not an instance of a wrapper type. -/
theorem PyObject_TypeCheck_of_not_wrapper (x : PyObject) (sbkType : Option PyTypeObject)
    (hty : isContainerSbkType sbkType = true) (hw : Object.checkType x = false) :
    PyObject_TypeCheck x sbkType = false := by
  cases sbkType with
  | none => rfl
  | some t =>
    cases t <;> simp [isContainerSbkType] at hty
    cases x <;> simp [Object.checkType] at hw <;>
      simp [PyObject_TypeCheck, PyType_IsSubtype, PyObject.ob_type]

/-- The loop of `StdListConverter::isConvertible` started at index `i` with the
remaining number of iterations tests the items from `i` on. -/
theorem StdListConverter_isConvertible_loop (elem : PyObject → Bool) (s : PyObject)
    (xs : List PyObject) (hs : PySequence_items s = some xs) :
    ∀ (n i : Nat), n + i = xs.length →
      StdListConverter.isConvertible.loop elem s n i = (xs.drop i).all elem := by
  intro n
  induction n with
  | zero =>
    intro i hi
    have : xs.drop i = [] := List.drop_eq_nil_of_le (by omega)
    simp [StdListConverter.isConvertible.loop, this]
  | succ n ih =>
    intro i hi
    have hlt : i < xs.length := by omega
    have hget : PySequence_GetItem s i = some xs[i] := by
      simp [PySequence_GetItem, hs, List.getElem?_eq_getElem hlt]
    have hdrop : xs.drop i = xs[i] :: xs.drop (i + 1) := List.drop_eq_getElem_cons hlt
    rw [hdrop, List.all_cons]
    simp only [StdListConverter.isConvertible.loop, hget]
    rw [ih (i + 1) (by omega)]
    cases h : elem xs[i] <;> simp

/-- A length that fits `int` is left unchanged by the conversion to `int`. -/
theorem castInt_of_le (v : Int) (h0 : 0 ≤ v) (h1 : v ≤ INT_MAX) : castInt v = v := by
  have h1' : v ≤ 2147483647 := h1
  have hmod : v % 4294967296 = v := Int.emod_eq_of_lt h0 (by omega)
  simp only [castInt, hmod]
  rw [if_neg (by omega)]

/-- On a plain two-element sequence `StdPairConverter::isConvertible` is the
disjunction of the two element tests. -/
theorem StdPairConverter_isConvertible_eq (sbkType : Option PyTypeObject)
    (first second : PyObject → Bool) (s a b : PyObject)
    (hty : isContainerSbkType sbkType = true)
    (hs : PySequence_items s = some [a, b]) (hw : Object.checkType s = false) :
    StdPairConverter.isConvertible sbkType first second s = (first a || second b) := by
  have ht := PyObject_TypeCheck_of_not_wrapper s sbkType hty hw
  have hseq : PySequence_Check s = true := by simp [PySequence_Check, hs]
  simp only [StdPairConverter.isConvertible, ht, hw, hseq, PySequence_Length, PySequence_GetItem, hs]
  cases h1 : first a <;> cases h2 : second b <;> simp [h1, h2]

/-- C7, evaluated where it fails: for a pair of two `int` members the tuple
`(1, None)`, whose second element is not convertible to `int`, is classified
convertible. -/
theorem StdPairConverter_isConvertible_one_bad :
    (Converter_PyInt ILP32 .int).isConvertible (.int 1) = true ∧
    (Converter_PyInt ILP32 .int).isConvertible .none = false ∧
    (StdPairConverter Option.none (Converter_PyInt ILP32 .int)
      (Converter_PyInt ILP32 .int)).isConvertible (.tuple [.int 1, .none]) = true := by
  decide

/-- The loop of `StdMapConverter::isConvertible` tests every key and every
value. -/
theorem StdMapConverter_isConvertible_loop (key mapped : PyObject → Bool)
    (es : List (PyObject × PyObject)) :
    StdMapConverter.isConvertible.loop key mapped es = true ↔
      ∀ e ∈ es, key e.1 = true ∧ mapped e.2 = true := by
  induction es with
  | nil => simp [StdMapConverter.isConvertible.loop]
  | cons e rest ih =>
    obtain ⟨k, v⟩ := e
    simp only [StdMapConverter.isConvertible.loop, List.mem_cons, forall_eq_or_imp]
    cases hk : key k <;> cases hv : mapped v <;> simp [ih]

/-- C8: for every plain dynamic mapping, `StdMapConverter::isConvertible` is
true exactly when every key is convertible under the key policy and every value
under the mapped-type policy; a dynamic value that is neither a mapping nor
an instance of the wrapped map type is rejected. -/
theorem StdMapConverter_isConvertible_iff (sbkType : Option PyTypeObject)
    (key mapped : PyObject → Bool) (hty : isContainerSbkType sbkType = true) :
    (∀ es : List (PyObject × PyObject),
      (StdMapConverter.isConvertible sbkType key mapped (.dict es) = true ↔
        ∀ e ∈ es, key e.1 = true ∧ mapped e.2 = true)) ∧
    (∀ x : PyObject, PyDict_Check x = false → PyObject_TypeCheck x sbkType = false →
      StdMapConverter.isConvertible sbkType key mapped x = false) := by
  refine ⟨?_, ?_⟩
  · intro es
    have ht := PyObject_TypeCheck_of_not_wrapper (.dict es) sbkType hty rfl
    have hd : PyDict_Check (.dict es) = true := rfl
    have hw : Object.checkType (.dict es) = false := rfl
    simp only [StdMapConverter.isConvertible, ht, hw, hd, PyDict_entries]
    simpa using StdMapConverter_isConvertible_loop key mapped es
  · intro x hd ht
    simp [StdMapConverter.isConvertible, ht, hd]

/-- Witness for C8: a map from `int` to `int`
with no registered wrapper type. -/
theorem StdMapConverter_isConvertible_iff_witness :
    isContainerSbkType Option.none = true ∧
    ((∀ es : List (PyObject × PyObject),
      (StdMapConverter.isConvertible Option.none (Converter_PyInt ILP32 .int).isConvertible
          (Converter_PyInt ILP32 .int).isConvertible (.dict es) = true ↔
        ∀ e ∈ es, (Converter_PyInt ILP32 .int).isConvertible e.1 = true ∧
          (Converter_PyInt ILP32 .int).isConvertible e.2 = true)) ∧
    (∀ x : PyObject, PyDict_Check x = false → PyObject_TypeCheck x Option.none = false →
      StdMapConverter.isConvertible Option.none (Converter_PyInt ILP32 .int).isConvertible
        (Converter_PyInt ILP32 .int).isConvertible x = false)) :=
  ⟨isContainerSbkType_none,
    StdMapConverter_isConvertible_iff Option.none (Converter_PyInt ILP32 .int).isConvertible
      (Converter_PyInt ILP32 .int).isConvertible isContainerSbkType_none⟩

/-! ## Sequence conversion to the native side -/

/-- The loop of `StdListConverter::toCpp` started at index `i`, on a sequence of
at most `INT_MAX` items: when every remaining element conversion returns, the
loop returns the container built so far extended by the converted elements, in
order, and no error is pending at the end unless one was pending before or an
element conversion raised one. -/
theorem StdListConverter_toCpp_loop {α : Type} (E : Converter α) (s : PyObject)
    (xs : List PyObject) (hs : PySequence_items s = some xs)
    (hmax : (xs.length : Int) ≤ INT_MAX) :
    ∀ (n i : Nat) (result : CppResult (List α)), n + i = xs.length →
      (∀ x ∈ xs.drop i, (E.toCpp x).isSome = true) →
      ∃ vs err, StdListConverter.toCpp.loop E s n i result = some ⟨result.value ++ vs, err⟩ ∧
        List.Forall₂ (fun x a => ∃ e, E.toCpp x = some ⟨a, e⟩) (xs.drop i) vs ∧
        ((∀ x ∈ xs.drop i, ∀ q, E.toCpp x = some q → q.error = Option.none) →
          err = result.error) := by
  intro n
  induction n with
  | zero =>
    intro i result hi _
    have hnil : xs.drop i = [] := List.drop_eq_nil_of_le (by omega)
    refine ⟨[], result.error, ?_, ?_, fun _ => rfl⟩
    · simp [StdListConverter.toCpp.loop]
    · rw [hnil]; exact List.Forall₂.nil
  | succ n ih =>
    intro i result hi hdef
    have hlt : i < xs.length := by omega
    have hi2 : ¬ INT_MAX ≤ (i : Int) := by omega
    have hget : PySequence_GetItem s i = some xs[i] := by
      simp [PySequence_GetItem, hs, List.getElem?_eq_getElem hlt]
    have hdrop : xs.drop i = xs[i] :: xs.drop (i + 1) := List.drop_eq_getElem_cons hlt
    rw [hdrop] at hdef ⊢
    have hsome := hdef xs[i] (List.mem_cons_self _ _)
    obtain ⟨q, hq⟩ := Option.isSome_iff_exists.mp hsome
    obtain ⟨vs, err, hloop, hall, herr⟩ :=
      ih (i + 1) ⟨result.value ++ [q.value], PyErr_merge result.error q.error⟩ (by omega)
        (fun x hx => hdef x (List.mem_cons_of_mem _ hx))
    refine ⟨q.value :: vs, err, ?_, ?_, ?_⟩
    · simp only [StdListConverter.toCpp.loop, hget, hq, if_neg hi2]
      rw [hloop]
      simp
    · exact List.Forall₂.cons ⟨q.error, hq⟩ hall
    · intro hnone
      have hqe : q.error = Option.none := hnone xs[i] (List.mem_cons_self _ _) q hq
      rw [herr (fun x hx => hnone x (List.mem_cons_of_mem _ hx))]
      simp [PyErr_merge, hqe]

/-- The loop of `StdListConverter::toCpp` has no defined result when its index
has to pass `INT_MAX`, whatever the items and the element conversions are. -/
theorem StdListConverter_toCpp_loop_overflow {α : Type} (E : Converter α) (s : PyObject) :
    ∀ (n i : Nat) (result : CppResult (List α)), (i : Int) ≤ INT_MAX →
      INT_MAX < ((i + n : Nat) : Int) →
      StdListConverter.toCpp.loop E s n i result = Option.none := by
  intro n
  induction n with
  | zero =>
    intro i result h1 h2
    simp only [Nat.add_zero] at h2
    omega
  | succ n ih =>
    intro i result h1 h2
    simp only [StdListConverter.toCpp.loop]
    cases hget : PySequence_GetItem s i with
    | none => rfl
    | some pyItem =>
      dsimp only
      cases hq : E.toCpp pyItem with
      | none => rfl
      | some r =>
        dsimp only
        by_cases hi : INT_MAX ≤ (i : Int)
        · rw [if_pos hi]
        · rw [if_neg hi]
          apply ih
          · push_cast
            omega
          · have : i + 1 + n = i + (n + 1) := by omega
            rw [this]
            exact h2

/-- On a sequence of at most `INT_MAX` items that is not an instance of the
wrapped container type, `StdListConverter::toCpp` returns whenever the element
conversions return: the container holds one element per item, in order, each
the result of the element conversion, and no error is pending unless an element
conversion raised one. -/
theorem StdListConverter_toCpp_plain {α : Type} (sbkType : Option PyTypeObject)
    (deref : Nat → Option (List α)) (E : Converter α) (s : PyObject) (xs : List PyObject)
    (hs : PySequence_items s = some xs) (ht : PyObject_TypeCheck s sbkType = false)
    (hmax : (xs.length : Int) ≤ INT_MAX)
    (hdef : ∀ x ∈ xs, (E.toCpp x).isSome = true) :
    ∃ r, StdListConverter.toCpp sbkType deref E s = some r ∧
      List.Forall₂ (fun x a => ∃ e, E.toCpp x = some ⟨a, e⟩) xs r.value ∧
      ((∀ x ∈ xs, ∀ q, E.toCpp x = some q → q.error = Option.none) →
        r.error = Option.none) := by
  have hlen : (PySequence_Length s).value.toNat = xs.length := by
    simp [PySequence_Length, hs]
  have herr0 : (PySequence_Length s).error = Option.none := by
    simp [PySequence_Length, hs]
  obtain ⟨vs, err, hloop, hall, herr⟩ :=
    StdListConverter_toCpp_loop E s xs hs hmax xs.length 0 ⟨[], (PySequence_Length s).error⟩
      (by omega) (by simpa using hdef)
  refine ⟨⟨vs, err⟩, ?_, ?_, ?_⟩
  · simp only [StdListConverter.toCpp, ht, hlen]
    simpa using hloop
  · simpa using hall
  · intro hnone
    rw [herr (by simpa using hnone), herr0]

/-- A plain list of more than `INT_MAX` items leaves `StdListConverter::toCpp`
without a defined result. -/
theorem StdListConverter_toCpp_of_long {α : Type} (deref : Nat → Option (List α))
    (E : Converter α) (xs : List PyObject) (h : INT_MAX < (xs.length : Int)) :
    StdListConverter.toCpp Option.none deref E (.list xs) = Option.none := by
  have hlen : (PySequence_Length (.list xs)).value.toNat = xs.length := by
    simp [PySequence_Length, PySequence_items]
  have ht : PyObject_TypeCheck (.list xs) Option.none = false := rfl
  simp only [StdListConverter.toCpp, ht, hlen]
  exact StdListConverter_toCpp_loop_overflow E (.list xs) xs.length 0 _ (by decide)
    (by simpa using h)

/-- C9, counterexample: for a list of `signed char` the sequence `[1, "ab"]`
has a convertible first element and a last element that is not convertible, is
classified not convertible, and `toCpp` returns the two-element container
`[1, 97]` with no error pending.  And where `Py_ssize_t` has 64 bits, for a
sequence of `2 ^ 31` items, the last of them `"ab"`, `toCpp` has no defined
result: the index `int i` would have to pass `INT_MAX`. -/
theorem StdListConverter_toCpp_last_bad :
    ((CharConverter ILP32 .schar).isConvertible (.int 1) = true ∧
      (CharConverter ILP32 .schar).isConvertible (.unicode [97, 98]) = false ∧
      StdListConverter.isConvertible Option.none (CharConverter ILP32 .schar).isConvertible
        (.list [.int 1, .unicode [97, 98]]) = false ∧
      StdListConverter.toCpp Option.none (fun _ => Option.none) (CharConverter ILP32 .schar)
        (.list [.int 1, .unicode [97, 98]]) = some ⟨[1, 97], Option.none⟩) ∧
    ((List.replicate 2147483647 (PyObject.int 1) ++ [PyObject.unicode [97, 98]]).length
        = 2147483648 ∧
      StdListConverter.toCpp Option.none (fun _ => Option.none) (CharConverter LP64 .schar)
        (.list (List.replicate 2147483647 (PyObject.int 1) ++ [PyObject.unicode [97, 98]]))
        = Option.none) := by
  have hlen : (List.replicate 2147483647 (PyObject.int 1) ++ [PyObject.unicode [97, 98]]).length
      = 2147483648 := by
    rw [List.length_append, List.length_replicate]
    rfl
  refine ⟨by decide, hlen, ?_⟩
  apply StdListConverter_toCpp_of_long
  rw [hlen]
  decide

/-- C9, amended: for a dynamic sequence of at most `INT_MAX` items in which
every element but the last is convertible and the last is not,
`StdListConverter::toCpp` does not raise TypeMismatch: whenever the element
conversions return, it returns a native container with one element per dynamic
element, in order, the last one being what the element policy's `toCpp` returns
for the unconvertible element, and no error is pending unless an element
conversion raised one, although `StdListConverter::isConvertible` classifies
the sequence not convertible. -/
theorem StdListConverter_toCpp_unchecked {α : Type} (sbkType : Option PyTypeObject)
    (deref : Nat → Option (List α)) (E : Converter α) (s : PyObject)
    (ys : List PyObject) (z : PyObject)
    (hs : PySequence_items s = some (ys ++ [z])) (ht : PyObject_TypeCheck s sbkType = false)
    (hmax : ((ys ++ [z]).length : Int) ≤ INT_MAX)
    (hys : ∀ y ∈ ys, E.isConvertible y = true) (hz : E.isConvertible z = false)
    (hdef : ∀ x ∈ ys ++ [z], (E.toCpp x).isSome = true) :
    StdListConverter.isConvertible sbkType E.isConvertible s = false ∧
    ∃ r, StdListConverter.toCpp sbkType deref E s = some r ∧
      r.value.length = ys.length + 1 ∧
      List.Forall₂ (fun x a => ∃ e, E.toCpp x = some ⟨a, e⟩) (ys ++ [z]) r.value ∧
      ((∀ x ∈ ys ++ [z], ∀ q, E.toCpp x = some q → q.error = Option.none) →
        r.error = Option.none) := by
  have _ := hys
  obtain ⟨r, hr, hall, herr⟩ :=
    StdListConverter_toCpp_plain sbkType deref E s (ys ++ [z]) hs ht hmax hdef
  have hlen : r.value.length = ys.length + 1 := by
    rw [← hall.length_eq]; simp
  refine ⟨?_, r, hr, hlen, hall, herr⟩
  have hseq : PySequence_Check s = true := by simp [PySequence_Check, hs]
  have hcast : (castInt (PySequence_Length s).value).toNat = (ys ++ [z]).length := by
    have : (PySequence_Length s).value = ((ys ++ [z]).length : Int) := by
      simp [PySequence_Length, hs]
    rw [this, castInt_of_le _ (Int.ofNat_nonneg _) hmax]
    simp
  simp only [StdListConverter.isConvertible, ht, hseq, hcast]
  rw [StdListConverter_isConvertible_loop E.isConvertible s (ys ++ [z]) hs (ys ++ [z]).length 0
    (by omega)]
  simp [hz]

/-- Witness for the amended C9: the list `[7, "xy"]` against
a list of `unsigned char`. -/
theorem StdListConverter_toCpp_unchecked_witness :
    (PySequence_items (.list [.int 7, .unicode [120, 121]])
        = some ([PyObject.int 7] ++ [PyObject.unicode [120, 121]]) ∧
      PyObject_TypeCheck (.list [.int 7, .unicode [120, 121]]) Option.none = false ∧
      ((([PyObject.int 7] ++ [PyObject.unicode [120, 121]]).length : Nat) : Int) ≤ INT_MAX ∧
      (∀ y ∈ [PyObject.int 7], (CharConverter ILP32 .uchar).isConvertible y = true) ∧
      (CharConverter ILP32 .uchar).isConvertible (.unicode [120, 121]) = false ∧
      (∀ x ∈ [PyObject.int 7] ++ [PyObject.unicode [120, 121]],
        ((CharConverter ILP32 .uchar).toCpp x).isSome = true)) ∧
    (StdListConverter.isConvertible Option.none (CharConverter ILP32 .uchar).isConvertible
        (.list [.int 7, .unicode [120, 121]]) = false ∧
      ∃ r, StdListConverter.toCpp Option.none (fun _ => Option.none) (CharConverter ILP32 .uchar)
        (.list [.int 7, .unicode [120, 121]]) = some r ∧
      r.value.length = [PyObject.int 7].length + 1 ∧
      List.Forall₂ (fun x a => ∃ e, (CharConverter ILP32 .uchar).toCpp x = some ⟨a, e⟩)
        ([PyObject.int 7] ++ [PyObject.unicode [120, 121]]) r.value ∧
      ((∀ x ∈ [PyObject.int 7] ++ [PyObject.unicode [120, 121]],
          ∀ q, (CharConverter ILP32 .uchar).toCpp x = some q → q.error = Option.none) →
        r.error = Option.none)) :=
  have h1 : ∀ y ∈ [PyObject.int 7], (CharConverter ILP32 .uchar).isConvertible y = true := by
    intro y hy
    simp only [List.mem_singleton] at hy
    subst hy
    rfl
  have h2 : ∀ x ∈ [PyObject.int 7] ++ [PyObject.unicode [120, 121]],
      ((CharConverter ILP32 .uchar).toCpp x).isSome = true := by
    intro x hx
    simp only [List.mem_append, List.mem_singleton] at hx
    rcases hx with rfl | rfl <;> rfl
  ⟨⟨rfl, rfl, by decide, h1, rfl, h2⟩,
    StdListConverter_toCpp_unchecked Option.none (fun _ => Option.none)
      (CharConverter ILP32 .uchar) (.list [.int 7, .unicode [120, 121]])
      [.int 7] (.unicode [120, 121]) rfl rfl (by decide) h1 rfl h2⟩

/-! ## Map conversion to the native side -/

/-- An entry of the map stays in the map after `insert`. -/
theorem StdMap_insert_mem_of_mem {κ ν : Type} [LinearOrder κ] (m : StdMap κ ν) (kv e : κ × ν)
    (h : e ∈ m) : e ∈ StdMap.insert m kv := by
  induction m with
  | nil => cases h
  | cons x rest ih =>
    simp only [StdMap.insert]
    split_ifs with h1 h2
    · exact List.mem_cons_of_mem _ h
    · rcases List.mem_cons.mp h with rfl | h'
      · exact List.mem_cons_self _ _
      · exact List.mem_cons_of_mem _ (ih h')
    · exact h

/-- An entry of the map after `insert` was in the map or is the inserted one. -/
theorem StdMap_mem_insert {κ ν : Type} [LinearOrder κ] (m : StdMap κ ν) (kv e : κ × ν)
    (h : e ∈ StdMap.insert m kv) : e ∈ m ∨ e = kv := by
  induction m with
  | nil =>
    simp only [StdMap.insert, List.mem_singleton] at h
    exact Or.inr h
  | cons x rest ih =>
    simp only [StdMap.insert] at h
    split_ifs at h with h1 h2
    · rcases List.mem_cons.mp h with rfl | h'
      · exact Or.inr rfl
      · exact Or.inl h'
    · rcases List.mem_cons.mp h with rfl | h'
      · exact Or.inl (List.mem_cons_self _ _)
      · rcases ih h' with h'' | h''
        · exact Or.inl (List.mem_cons_of_mem _ h'')
        · exact Or.inr h''
    · exact Or.inl h

/-- An entry whose key the map does not hold is in the map after `insert`. -/
theorem StdMap_insert_mem_new {κ ν : Type} [LinearOrder κ] (m : StdMap κ ν) (kv : κ × ν)
    (h : ∀ e ∈ m, e.1 ≠ kv.1) : kv ∈ StdMap.insert m kv := by
  induction m with
  | nil => simp [StdMap.insert]
  | cons x rest ih =>
    simp only [StdMap.insert]
    split_ifs with h1 h2
    · exact List.mem_cons_self _ _
    · exact List.mem_cons_of_mem _ (ih (fun e he => h e (List.mem_cons_of_mem _ he)))
    · exact absurd (le_antisymm (not_lt.mp h1) (not_lt.mp h2)) (h x (List.mem_cons_self _ _))

/-- The member `insert` keeps the entries in strictly increasing key order. -/
theorem StdMap_insert_sorted {κ ν : Type} [LinearOrder κ] (m : StdMap κ ν) (kv : κ × ν)
    (h : List.Pairwise (fun a b : κ × ν => a.1 < b.1) m) :
    List.Pairwise (fun a b : κ × ν => a.1 < b.1) (StdMap.insert m kv) := by
  induction m with
  | nil => simp [StdMap.insert]
  | cons x rest ih =>
    simp only [StdMap.insert]
    rw [List.pairwise_cons] at h
    split_ifs with h1 h2
    · refine List.Pairwise.cons ?_ (List.Pairwise.cons h.1 h.2)
      intro e he
      rcases List.mem_cons.mp he with rfl | he'
      · exact h1
      · exact lt_trans h1 (h.1 e he')
    · refine List.Pairwise.cons ?_ (ih h.2)
      intro e he
      rcases StdMap_mem_insert rest kv e he with he' | rfl
      · exact h.1 e he'
      · exact h2
    · exact List.Pairwise.cons h.1 h.2

/-- In a map in strictly increasing key order, the entries with the key of a
given entry are that entry alone. -/
theorem StdMap_filter_key {κ ν : Type} [LinearOrder κ] (m : StdMap κ ν) (k : κ) (v : ν)
    (hs : List.Pairwise (fun a b : κ × ν => a.1 < b.1) m) (h : (k, v) ∈ m) :
    m.filter (fun e => decide (e.1 = k)) = [(k, v)] := by
  induction m with
  | nil => cases h
  | cons x rest ih =>
    rw [List.pairwise_cons] at hs
    rcases List.mem_cons.mp h with hx | hrest
    · subst hx
      have hnone : rest.filter (fun e => decide (e.1 = k)) = [] := by
        rw [List.filter_eq_nil_iff]
        intro e he
        have := hs.1 e he
        simp only [decide_eq_true_eq]
        exact ne_of_gt this
      simp [List.filter_cons, hnone]
    · have hne : x.1 ≠ k := ne_of_lt (hs.1 (k, v) hrest)
      simp [List.filter_cons, hne, ih hs.2 hrest]

/-- The loop of `StdMapConverter::toCpp` over a list of entries whose
conversions all return: it returns, keeps the key order, keeps every entry the
map already held, and every entry of the result was already held or is the
conversion of a visited entry. -/
theorem StdMapConverter_toCpp_loop {κ ν : Type} [LinearOrder κ] (K : Converter κ)
    (V : Converter ν) (es : List (PyObject × PyObject)) :
    ∀ result : CppResult (StdMap κ ν),
      (∀ e ∈ es, (K.toCpp e.1).isSome = true ∧ (V.toCpp e.2).isSome = true) →
      ∃ r, StdMapConverter.toCpp.loop K V es result = some r ∧
        (List.Pairwise (fun a b : κ × ν => a.1 < b.1) result.value →
          List.Pairwise (fun a b : κ × ν => a.1 < b.1) r.value) ∧
        (∀ x ∈ result.value, x ∈ r.value) ∧
        (∀ x ∈ r.value, x ∈ result.value ∨
          ∃ e ∈ es, ∃ a b, K.toCpp e.1 = some a ∧ V.toCpp e.2 = some b ∧
            x = (a.value, b.value)) := by
  induction es with
  | nil =>
    intro result _
    exact ⟨result, rfl, id, fun _ h => h, fun _ h => Or.inl h⟩
  | cons e rest ih =>
    intro result hdef
    obtain ⟨key, value⟩ := e
    obtain ⟨hk, hv⟩ := hdef (key, value) (List.mem_cons_self _ _)
    obtain ⟨a, ha⟩ := Option.isSome_iff_exists.mp hk
    obtain ⟨b, hb⟩ := Option.isSome_iff_exists.mp hv
    obtain ⟨r, hr, hsorted, hkeep, hfrom⟩ :=
      ih ⟨StdMap.insert result.value (a.value, b.value),
          PyErr_merge (PyErr_merge result.error a.error) b.error⟩
        (fun e he => hdef e (List.mem_cons_of_mem _ he))
    refine ⟨r, ?_, ?_, ?_, ?_⟩
    · simp only [StdMapConverter.toCpp.loop, ha, hb]
      exact hr
    · intro hs
      exact hsorted (StdMap_insert_sorted result.value (a.value, b.value) hs)
    · intro x hx
      exact hkeep x (StdMap_insert_mem_of_mem result.value (a.value, b.value) x hx)
    · intro x hx
      rcases hfrom x hx with h1 | ⟨e, he, a', b', ha', hb', hxe⟩
      · rcases StdMap_mem_insert result.value (a.value, b.value) x h1 with h2 | h2
        · exact Or.inl h2
        · exact Or.inr ⟨(key, value), List.mem_cons_self _ _, a, b, ha, hb, h2⟩
      · exact Or.inr ⟨e, List.mem_cons_of_mem _ he, a', b', ha', hb', hxe⟩

/-- The loop over a concatenation of entry lists is the loop over the first
list followed by the loop over the second. -/
theorem StdMapConverter_toCpp_loop_append {κ ν : Type} [LinearOrder κ] (K : Converter κ)
    (V : Converter ν) (es₁ es₂ : List (PyObject × PyObject)) :
    ∀ result : CppResult (StdMap κ ν),
      StdMapConverter.toCpp.loop K V (es₁ ++ es₂) result =
        (StdMapConverter.toCpp.loop K V es₁ result).bind (StdMapConverter.toCpp.loop K V es₂) := by
  induction es₁ with
  | nil => intro result; rfl
  | cons e rest ih =>
    intro result
    obtain ⟨key, value⟩ := e
    simp only [List.cons_append, StdMapConverter.toCpp.loop]
    cases hk : K.toCpp key with
    | none => simp
    | some a =>
      cases hv : V.toCpp value with
      | none => simp
      | some b => simpa using ih _

/-- C10, counterexample: for a map from `int` to `int`, the dictionary with the
entries `1 : 10` and `1.5 : 20`, visited in that order, has two dynamic keys
that both convert to the native key `1`; the native map holds the single entry
`(1, 10)`, the value of the key visited first, not `20`. -/
theorem StdMapConverter_toCpp_keeps_first :
    (Converter_PyInt ILP32 .int).toCpp (.int 1) = some ⟨1, Option.none⟩ ∧
    (Converter_PyInt ILP32 .int).toCpp (.float (.finite 3 (-1))) = some ⟨1, Option.none⟩ ∧
    (Converter_PyInt ILP32 .int).toCpp (.int 20) = some ⟨20, Option.none⟩ ∧
    (StdMapConverter Option.none (Converter_PyInt ILP32 .int) (Converter_PyInt ILP32 .int)).toCpp
      (.dict [(.int 1, .int 10), (.float (.finite 3 (-1)), .int 20)])
      = some ⟨[(1, 10)], Option.none⟩ := by
  decide

/-- C10, amended: converting with `StdMapConverter::toCpp` a dynamic mapping
that has two dynamic keys `k1`, `k2` (`k1` visited before `k2`) whose converted
native keys are equal, `k1` being the first visited key with that native key,
yields (whenever the key and value conversions return) a native map with
exactly one entry for that native key, and that entry holds the converted value
of `k1`: the first write wins, since `insert` leaves an existing entry as it
is. -/
theorem StdMapConverter_toCpp_first_wins {κ ν : Type} [LinearOrder κ] (K : Converter κ)
    (V : Converter ν) (pre mid post : List (PyObject × PyObject))
    (k1 v1 k2 v2 : PyObject) (a1 a2 : CppResult κ) (b1 : CppResult ν)
    (hdef : ∀ e ∈ pre ++ (k1, v1) :: (mid ++ (k2, v2) :: post),
      (K.toCpp e.1).isSome = true ∧ (V.toCpp e.2).isSome = true)
    (hk1 : K.toCpp k1 = some a1) (hv1 : V.toCpp v1 = some b1)
    (hk2 : K.toCpp k2 = some a2) (heq : a2.value = a1.value)
    (hfirst : ∀ e ∈ pre, ∀ a, K.toCpp e.1 = some a → a.value ≠ a1.value) :
    ∃ r, StdMapConverter.toCpp K V (.dict (pre ++ (k1, v1) :: (mid ++ (k2, v2) :: post)))
        = some r ∧
      r.value.filter (fun e => decide (e.1 = a1.value)) = [(a1.value, b1.value)] := by
  have _ := hk2
  have _ := heq
  -- the entries visited before `k1`
  obtain ⟨r0, hr0, hs0, _, hfrom0⟩ :=
    StdMapConverter_toCpp_loop K V pre ⟨[], Option.none⟩
      (fun e he => hdef e (List.mem_append_left _ he))
  have hsorted0 : List.Pairwise (fun a b : κ × ν => a.1 < b.1) r0.value :=
    hs0 List.Pairwise.nil
  have hfresh : ∀ e ∈ r0.value, e.1 ≠ (a1.value, b1.value).1 := by
    intro x hx
    rcases hfrom0 x hx with h | ⟨e, he, a, b, ha, _, hxe⟩
    · cases h
    · rw [hxe]
      exact hfirst e he a ha
  -- the entries from `k1` on
  obtain ⟨r, hr, hs, hkeep, _⟩ :=
    StdMapConverter_toCpp_loop K V (mid ++ (k2, v2) :: post)
      ⟨StdMap.insert r0.value (a1.value, b1.value),
        PyErr_merge (PyErr_merge r0.error a1.error) b1.error⟩
      (fun e he => hdef e (List.mem_append_right _ (List.mem_cons_of_mem _ he)))
  refine ⟨r, ?_, ?_⟩
  · simp only [StdMapConverter.toCpp, PyDict_entries]
    rw [StdMapConverter_toCpp_loop_append, hr0]
    simp only [Option.bind_some, StdMapConverter.toCpp.loop, hk1, hv1]
    exact hr
  · apply StdMap_filter_key r.value a1.value b1.value
    · exact hs (StdMap_insert_sorted r0.value (a1.value, b1.value) hsorted0)
    · exact hkeep _ (StdMap_insert_mem_new r0.value (a1.value, b1.value) hfresh)

/-- Witness for the amended C10: a map from `unsigned char`
to `int` and the dictionary `7 : 1, "a" : 2, 97 : 3, 8 : 4`, in which the
keys `"a"` and `97` convert to the native key `97`. -/
theorem StdMapConverter_toCpp_first_wins_witness :
    ((∀ e ∈ [(PyObject.int 7, PyObject.int 1)] ++ (PyObject.unicode [97], PyObject.int 2) ::
          ([] ++ (PyObject.int 97, PyObject.int 3) :: [(PyObject.int 8, PyObject.int 4)]),
        ((CharConverter ILP32 .uchar).toCpp e.1).isSome = true ∧
          ((Converter_PyInt ILP32 .int).toCpp e.2).isSome = true) ∧
      (CharConverter ILP32 .uchar).toCpp (.unicode [97]) = some ⟨97, Option.none⟩ ∧
      (Converter_PyInt ILP32 .int).toCpp (.int 2) = some ⟨2, Option.none⟩ ∧
      (CharConverter ILP32 .uchar).toCpp (.int 97) = some ⟨97, Option.none⟩ ∧
      (∀ e ∈ [(PyObject.int 7, PyObject.int 1)], ∀ a,
        (CharConverter ILP32 .uchar).toCpp e.1 = some a → a.value ≠ 97)) ∧
    (∃ r, StdMapConverter.toCpp (CharConverter ILP32 .uchar) (Converter_PyInt ILP32 .int)
        (.dict ([(PyObject.int 7, PyObject.int 1)] ++ (PyObject.unicode [97], PyObject.int 2) ::
          ([] ++ (PyObject.int 97, PyObject.int 3) :: [(PyObject.int 8, PyObject.int 4)])))
        = some r ∧
      r.value.filter (fun e => decide (e.1 = 97)) = [(97, 2)]) :=
  have h1 : ∀ e ∈ [(PyObject.int 7, PyObject.int 1)] ++ (PyObject.unicode [97], PyObject.int 2) ::
        ([] ++ (PyObject.int 97, PyObject.int 3) :: [(PyObject.int 8, PyObject.int 4)]),
      ((CharConverter ILP32 .uchar).toCpp e.1).isSome = true ∧
        ((Converter_PyInt ILP32 .int).toCpp e.2).isSome = true := by
    intro e he
    simp only [List.singleton_append, List.nil_append, List.mem_cons, List.mem_singleton] at he
    rcases he with rfl | rfl | rfl | rfl | he
    · exact ⟨rfl, rfl⟩
    · exact ⟨rfl, rfl⟩
    · exact ⟨rfl, rfl⟩
    · exact ⟨rfl, rfl⟩
    · cases he
  have h2 : ∀ e ∈ [(PyObject.int 7, PyObject.int 1)], ∀ a,
      (CharConverter ILP32 .uchar).toCpp e.1 = some a → a.value ≠ 97 := by
    intro e he a ha
    simp only [List.mem_singleton] at he
    subst he
    have h7 : (CharConverter ILP32 .uchar).toCpp (.int 7) = some ⟨7, Option.none⟩ := rfl
    rw [h7] at ha
    cases ha
    decide
  ⟨⟨h1, rfl, rfl, rfl, h2⟩,
    StdMapConverter_toCpp_first_wins (CharConverter ILP32 .uchar) (Converter_PyInt ILP32 .int)
      [(.int 7, .int 1)] [] [(.int 8, .int 4)] (.unicode [97]) (.int 2) (.int 97) (.int 3)
      ⟨97, Option.none⟩ ⟨97, Option.none⟩ ⟨2, Option.none⟩ h1 rfl rfl rfl rfl h2⟩

/-! ## Boolean and character policies -/

/-- C17: for the boolean policy, `checkType(x)` holds exactly when `x` is one of
the canonical boolean objects, while `isConvertible(x)` holds for every dynamic
integer and every boolean; the integer `1` is convertible and does not pass
`checkType`. -/
theorem Converter_bool_classification (P : Platform) :
    (∀ x : PyObject, (Converter_bool P).checkType x = true ↔ ∃ b, x = .bool b) ∧
    (∀ v : Int, (Converter_bool P).isConvertible (.int v) = true) ∧
    (∀ b : Bool, (Converter_bool P).isConvertible (.bool b) = true) ∧
    ((Converter_bool P).isConvertible (.int 1) = true ∧
      (Converter_bool P).checkType (.int 1) = false) := by
  refine ⟨?_, fun _ => rfl, fun _ => rfl, rfl, rfl⟩
  intro x
  constructor
  · intro h
    exact PyBool_Check_cases x h
  · rintro ⟨b, rfl⟩
    rfl

/-- Unfolding of `Converter_PyInt::toCpp` on a float object. -/
theorem Converter_PyInt_toCpp_float (P : Platform) (T : CInt) (d : Double) :
    Converter_PyInt.toCpp P T (.float d) =
      some ⟨castDouble P T d,
        if OverFlowChecker.check P T (castDouble P .llong d) = true
          then some PyExc.OverflowError else Option.none⟩ := rfl

/-- For a target that fits `PY_LONG_LONG` and a finite float whose truncation
toward zero `t` fits `PY_LONG_LONG`, `toCpp` leaves OverflowError pending
exactly when `t` is out of the range of the target, and returns `t` with no
error when it is in range. -/
theorem Converter_PyInt_toCpp_float_of_fits (P : Platform) (T : CInt) (d : Double) (t : Int)
    (hfit : T.max P ≤ LLONG_MAX) (ht : d.trunc = some t)
    (hlo : LLONG_MIN ≤ t) (hhi : t ≤ LLONG_MAX) :
    ∃ r, Converter_PyInt.toCpp P T (.float d) = some r ∧
      (r.error = some PyExc.OverflowError ↔ T.inRange P t = false) ∧
      (T.inRange P t = true → r = ⟨t, Option.none⟩) := by
  have _ := hfit
  have hll : CInt.inRange P .llong t = true := by
    simp only [LLONG_MIN, LLONG_MAX] at hlo hhi
    simp [CInt.inRange, CInt.min, CInt.max, CInt.is_signed, CInt.bits]
    omega
  have hcast : castDouble P .llong d = t := by
    simp [castDouble, ht, hll]
  rw [Converter_PyInt_toCpp_float, hcast, OverFlowChecker_check_eq P T t hlo hhi]
  refine ⟨_, rfl, ?_, ?_⟩
  · cases T.inRange P t <;> simp
  · intro h
    simp [castDouble, ht, h]

/-- Where `long` has 64 bits, `Converter<long>::toCpp` leaves no error pending
for any float, whatever it is: the checker receives a `PY_LONG_LONG`, and every
`PY_LONG_LONG` is in the range of a 64-bit `long`. -/
theorem Converter_long64_toCpp_float_no_error (P : Platform) (d : Double)
    (h64 : P.long64 = true) (hlo : LLONG_MIN ≤ P.fpInvalid) (hhi : P.fpInvalid ≤ LLONG_MAX) :
    ∃ r, Converter_PyInt.toCpp P .long (.float d) = some r ∧ r.error = Option.none := by
  rw [Converter_PyInt_toCpp_float]
  refine ⟨_, rfl, ?_⟩
  have hc : ∀ v : Int, LLONG_MIN ≤ v → v ≤ LLONG_MAX → OverFlowChecker.check P .long v = false := by
    intro v h1 h2
    rw [OverFlowChecker_check_eq P .long v h1 h2]
    simp only [LLONG_MIN, LLONG_MAX] at h1 h2
    simp [CInt.inRange, CInt.min, CInt.max, CInt.is_signed, CInt.bits, h64]
    omega
  have hv : LLONG_MIN ≤ castDouble P .llong d ∧ castDouble P .llong d ≤ LLONG_MAX := by
    unfold castDouble
    cases hd : d.trunc with
    | none => exact ⟨hlo, hhi⟩
    | some t =>
      by_cases hr : CInt.inRange P .llong t = true
      · simp only [hr, if_true]
        simpa [CInt.inRange, CInt.min, CInt.max, CInt.is_signed, CInt.bits, LLONG_MIN,
          LLONG_MAX] using hr
      · simp only [hr]
        exact ⟨hlo, hhi⟩
  show (if OverFlowChecker.check P .long (castDouble P .llong d) = true
    then some PyExc.OverflowError else Option.none) = Option.none
  rw [hc _ hv.1 hv.2]
  rfl

/-- C19, evaluated where it fails: where `long` has 64 bits,
`Converter<long>::toCpp` of the float `2 ^ 70`, whose truncation lies above
`max(long)`, leaves no error pending and returns the value of the out-of-range
cast; the floats `3.7` and `-3.7` convert to `3` and `-3`. -/
theorem Converter_long_toCpp_float_silent :
    Double.trunc (.finite 1 70) = some 1180591620717411303424 ∧
    CInt.inRange LP64 .long 1180591620717411303424 = false ∧
    (Converter_PyInt LP64 .long).toCpp (.float (.finite 1 70))
      = some ⟨-9223372036854775808, Option.none⟩ ∧
    (Converter_PyInt LP64 .long).toCpp (.float (.finite 4165829655317709 (-50)))
      = some ⟨3, Option.none⟩ ∧
    (Converter_PyInt LP64 .long).toCpp (.float (.finite (-4165829655317709) (-50)))
      = some ⟨-3, Option.none⟩ := by
  decide

/-- The checker for `double` never reports overflow, and the checker for
`float` reports it exactly for the values below `numeric_limits<float>::min()`
or above `numeric_limits<float>::max()`. -/
theorem OverFlowChecker_float_check_eq (v : Double) :
    OverFlowChecker_double.check v = false ∧
    (OverFlowChecker_float.check v = true ↔
      (Double.lt v FLT_MIN = true ∨ Double.lt FLT_MAX v = true)) := by
  refine ⟨rfl, ?_⟩
  simp [OverFlowChecker_float.check]

/-- C20, evaluated where it fails: `OverFlowChecker<float>::check` reports
overflow for `0.0` and for `-1.0`, which lie inside the finite range of `float`
(neither below `-FLT_MAX` nor above `FLT_MAX`); the checker for `double` reports
none. -/
theorem OverFlowChecker_float_check_zero :
    OverFlowChecker_float.check (.finite 0 0) = true ∧
    OverFlowChecker_float.check (.finite (-1) 0) = true ∧
    Double.lt (.finite 0 0) (Double.neg FLT_MAX) = false ∧
    Double.lt FLT_MAX (.finite 0 0) = false ∧
    Double.lt (.finite (-1) 0) (Double.neg FLT_MAX) = false ∧
    Double.lt FLT_MAX (.finite (-1) 0) = false ∧
    OverFlowChecker_double.check (.finite 0 0) = false := by
  have h1 : (126 : Int).toNat = 126 := rfl
  have h2 : (104 : Int).toNat = 104 := rfl
  refine ⟨?_, ?_, ?_, ?_, ?_, ?_, rfl⟩ <;>
    norm_num [OverFlowChecker_float.check, Double.lt, Double.neg, FLT_MIN, FLT_MAX, h1, h2]

/-! ## Containers: wrapped instances, element order, pairs -/

/-- On a wrapper object that is an instance of the wrapped container type
`StdListConverter::toCpp` returns the native container the wrapper points to,
with no error, and reads no item through the sequence protocol. -/
theorem StdListConverter_toCpp_wrapped {α : Type} (sbkType : Option PyTypeObject)
    (deref : Nat → Option (List α)) (E : Converter α) (tp : Nat) (bases : List Nat) (p : Nat)
    (seq : Option (List PyObject))
    (hw : PyObject_TypeCheck (.wrapper tp bases p seq) sbkType = true) :
    StdListConverter.isConvertible sbkType E.isConvertible (.wrapper tp bases p seq) = true ∧
    StdListConverter.toCpp sbkType deref E (.wrapper tp bases p seq)
      = (deref p).map fun c => ⟨c, Option.none⟩ := by
  simp [StdListConverter.isConvertible, StdListConverter.toCpp, hw, Object.cppPointer]

/-- C11, evaluated where it fails: a wrapper object that is an instance of the
wrapped map type (respectively pair type) is accepted by `isConvertible`, but
`StdMapConverter::toCpp` returns the empty map for it, whatever native map the
wrapper points to, and `StdPairConverter::toCpp` asks it for items `0` and `1`
through the sequence protocol and has no defined result when it has none. -/
theorem StdMapConverter_toCpp_wrapped_empty :
    ((StdMapConverter (some (.SbkObject 7 [])) (Converter_PyInt ILP32 .int)
        (Converter_PyInt ILP32 .int)).isConvertible (.wrapper 7 [] 4096 Option.none) = true ∧
      (StdMapConverter (some (.SbkObject 7 [])) (Converter_PyInt ILP32 .int)
        (Converter_PyInt ILP32 .int)).toCpp (.wrapper 7 [] 4096 Option.none)
        = some ⟨[], Option.none⟩) ∧
    ((StdPairConverter (some (.SbkObject 8 [])) (Converter_PyInt ILP32 .int)
        (Converter_PyInt ILP32 .int)).isConvertible (.wrapper 8 [] 4096 Option.none) = true ∧
      (StdPairConverter (some (.SbkObject 8 [])) (Converter_PyInt ILP32 .int)
        (Converter_PyInt ILP32 .int)).toCpp (.wrapper 8 [] 4096 Option.none)
        = Option.none) := by
  decide

/-- C13: for every dynamic sequence whose items are `a` and `b` and whose
element conversions return, `StdPairConverter::toCpp` yields the native pair
of `toCpp(a)` and `toCpp(b)`; `StdPairConverter::toPython` of a native pair
`(x, y)` yields the 2-element sequence `(toPython(x), toPython(y))`; for
`pair<int, string>` the tuple `(1, "a")` converts to `{1, "a"}` and back to
`(1, "a")`. -/
theorem StdPairConverter_toCpp_toPython {α β : Type} (F : Converter α) (S : Converter β) :
    (∀ (s a b : PyObject) (ra : CppResult α) (rb : CppResult β),
      PySequence_items s = some [a, b] → F.toCpp a = some ra → S.toCpp b = some rb →
      ∃ r, StdPairConverter.toCpp F S s = some r ∧ r.value = (ra.value, rb.value)) ∧
    (∀ (x : α) (y : β),
      StdPairConverter.toPython F S (x, y) = .tuple [F.toPython x, S.toPython y]) ∧
    ((StdPairConverter Option.none (Converter_PyInt ILP32 .int) Converter_stdString).toCpp
        (.tuple [.int 1, .unicode [97]]) = some ⟨(1, [97]), Option.none⟩ ∧
      (StdPairConverter Option.none (Converter_PyInt ILP32 .int) Converter_stdString).toPython
        (1, [97]) = .tuple [.int 1, .unicode [97]]) := by
  refine ⟨?_, fun _ _ => rfl, by decide, rfl⟩
  intro s a b ra rb hs ha hb
  refine ⟨⟨(ra.value, rb.value), PyErr_merge ra.error rb.error⟩, ?_, rfl⟩
  simp [StdPairConverter.toCpp, PySequence_GetItem, hs, ha, hb]

/-- Witness for C13: the tuple `(1, "a")` against `pair<int, string>`. -/
theorem StdPairConverter_toCpp_toPython_witness :
    (PySequence_items (.tuple [.int 1, .unicode [97]]) = some [.int 1, .unicode [97]] ∧
      (Converter_PyInt ILP32 .int).toCpp (.int 1) = some ⟨1, Option.none⟩ ∧
      Converter_stdString.toCpp (.unicode [97]) = some ⟨[97], Option.none⟩) ∧
    ∃ r, StdPairConverter.toCpp (Converter_PyInt ILP32 .int) Converter_stdString
        (.tuple [.int 1, .unicode [97]]) = some r ∧
      r.value = ((1 : Int), [97]) :=
  ⟨⟨rfl, rfl, rfl⟩,
    (StdPairConverter_toCpp_toPython (Converter_PyInt ILP32 .int) Converter_stdString).1
      (.tuple [.int 1, .unicode [97]]) (.int 1) (.unicode [97]) ⟨1, Option.none⟩
      ⟨[97], Option.none⟩ rfl rfl rfl⟩

/-! ## Identity and ownership of wrappers -/

/-- A wrapper the registry returns for a pointer is an entry of the registry. -/
theorem retrieveWrapper_mem (st : BindingState) (p a : Nat)
    (h : BindingManager.retrieveWrapper st p = some a) : (p, a) ∈ st.wrapperMapper := by
  simp only [BindingManager.retrieveWrapper, Option.map_eq_some'] at h
  obtain ⟨e, he, hea⟩ := h
  have hmem := List.mem_of_find?_eq_some he
  have hkey := List.find?_some he
  simp only [beq_iff_eq] at hkey
  obtain ⟨k, v⟩ := e
  simp only at hkey hea
  subst hkey hea
  exact hmem

/-- One more reference to an existing wrapper changes the reference count of
that wrapper and nothing else. -/
theorem Py_INCREF_spec (st : BindingState) (a : Nat) (o : SbkObject)
    (h : st.objects.get? a = some o) :
    Py_INCREF st a =
      { st with objects := st.objects.set a { o with ob_refcnt := o.ob_refcnt + 1 } } := by
  simp only [Py_INCREF, h]

/-- After `Object::newObject` the registry returns the new wrapper for the
pointer. -/
theorem retrieveWrapper_newObject (st : BindingState) (tp : Option PyTypeObject) (p : Nat)
    (own ex : Bool) (tn : Option Nat) :
    BindingManager.retrieveWrapper (Object.newObject st tp p own ex tn).2 p
      = some st.objects.length := by
  simp [Object.newObject, BindingManager.registerWrapper, BindingManager.retrieveWrapper]

/-- Registering a wrapper keeps the registry keyed by the native pointer. -/
theorem registerWrapper_unique (st : BindingState) (a p : Nat) (hu : st.unique = true) :
    (BindingManager.registerWrapper st a p).unique = true := by
  simp only [BindingState.unique, decide_eq_true_eq] at hu ⊢
  simp only [BindingManager.registerWrapper, List.map_cons, List.nodup_cons]
  constructor
  · intro hmem
    obtain ⟨e, he, hep⟩ := List.mem_map.mp hmem
    have := (List.mem_filter.mp he).2
    simp [hep] at this
  · exact hu.sublist ((List.filter_sublist _).map Prod.fst)

/-- C14: `ObjectTypeConverter::toPython` of the null pointer returns the
no-value sentinel and leaves the state as it is; for a non-null pointer `p`,
in a state whose registry is keyed by the native pointer and holds addresses of
wrappers only, two successive `toPython(p)` calls return the same wrapper, the
second call leaves the registry as it is and changes the wrapper objects only by
adding one to the reference count of that wrapper, and after each call the
registry holds one wrapper per pointer. -/
theorem ObjectTypeConverter_toPython_identity (typeid_name : Nat → Nat)
    (sbkType : Option PyTypeObject) :
    (∀ st : BindingState,
      ObjectTypeConverter.toPython typeid_name st sbkType 0 = (.Py_None, st)) ∧
    (∀ (st : BindingState) (p : Nat) (r1 r2 : PyObjectPtr × BindingState),
      p ≠ 0 → st.valid = true → st.unique = true →
      ObjectTypeConverter.toPython typeid_name st sbkType p = r1 →
      ObjectTypeConverter.toPython typeid_name r1.2 sbkType p = r2 →
      ∃ a o, r1.1 = .sbkObject a ∧ r2.1 = .sbkObject a ∧
        r1.2.objects.get? a = some o ∧
        r2.2.objects = r1.2.objects.set a { o with ob_refcnt := o.ob_refcnt + 1 } ∧
        r2.2.wrapperMapper = r1.2.wrapperMapper ∧
        BindingManager.retrieveWrapper r2.2 p = some a ∧
        r1.2.unique = true ∧ r2.2.unique = true) := by
  refine ⟨fun st => by simp [ObjectTypeConverter.toPython], ?_⟩
  intro st p r1 r2 hp hv hu h1 h2
  cases hr : BindingManager.retrieveWrapper st p with
  | some a =>
    -- the pointer is registered: both calls find the wrapper
    have hmem := retrieveWrapper_mem st p a hr
    have hlt : a < st.objects.length := by
      simp only [BindingState.valid, List.all_eq_true, decide_eq_true_eq] at hv
      exact hv (p, a) hmem
    obtain ⟨o, ho⟩ : ∃ o, st.objects.get? a = some o :=
      ⟨st.objects[a], by simp [hlt]⟩
    have e1 : r1 = (.sbkObject a, Py_INCREF st a) := by
      rw [← h1]; simp [ObjectTypeConverter.toPython, hp, hr]
    have hst1 := Py_INCREF_spec st a o ho
    have hr1 : BindingManager.retrieveWrapper r1.2 p = some a := by
      rw [e1, hst1]; exact hr
    have ho1 : r1.2.objects.get? a = some { o with ob_refcnt := o.ob_refcnt + 1 } := by
      rw [e1, hst1]
      simp [List.getElem?_set, hlt]
    have e2 : r2 = (.sbkObject a, Py_INCREF r1.2 a) := by
      rw [← h2]; simp [ObjectTypeConverter.toPython, hp, hr1]
    have hst2 := Py_INCREF_spec r1.2 a _ ho1
    refine ⟨a, _, by rw [e1], by rw [e2], ho1, ?_, ?_, ?_, ?_, ?_⟩
    · rw [e2, hst2]
    · rw [e2, hst2]
    · rw [e2, hst2]; exact hr1
    · rw [e1, hst1]; exact hu
    · rw [e2, hst2, e1, hst1]; exact hu
  | none =>
    -- the pointer is not registered: the first call creates and registers a wrapper
    have e1 : r1 = (.sbkObject st.objects.length,
        (Object.newObject st sbkType p false false (some (typeid_name p))).2) := by
      rw [← h1]; simp [ObjectTypeConverter.toPython, hp, hr, createWrapper, Object.newObject]
    have hr1 : BindingManager.retrieveWrapper r1.2 p = some st.objects.length := by
      rw [e1]; exact retrieveWrapper_newObject st sbkType p false false (some (typeid_name p))
    have ho1 : r1.2.objects.get? st.objects.length = some ⟨1, sbkType, p, false⟩ := by
      rw [e1]
      simp [Object.newObject, BindingManager.registerWrapper]
    have e2 : r2 = (.sbkObject st.objects.length, Py_INCREF r1.2 st.objects.length) := by
      rw [← h2]; simp [ObjectTypeConverter.toPython, hp, hr1]
    have hst2 := Py_INCREF_spec r1.2 st.objects.length _ ho1
    have hu1 : r1.2.unique = true := by
      rw [e1]
      exact registerWrapper_unique _ _ _ hu
    refine ⟨st.objects.length, _, by rw [e1], by rw [e2], ho1, ?_, ?_, ?_, hu1, ?_⟩
    · rw [e2, hst2]
    · rw [e2, hst2]
    · rw [e2, hst2]; exact hr1
    · rw [e2, hst2]; exact hu1

/-- The pointer adapter `Converter<T*>` converts to the dynamic side with the
body of `ObjectTypeConverter::toPython`. -/
theorem Converter_pointer_toPython_eq (typeid_name : Nat → Nat) (st : BindingState)
    (sbkType : Option PyTypeObject) (cppobj : Nat) :
    Converter_pointer.toPython typeid_name st sbkType cppobj
      = ObjectTypeConverter.toPython typeid_name st sbkType cppobj := rfl

/-- Witness for C14: the pointer `4096` converted twice from the empty state. -/
theorem ObjectTypeConverter_toPython_identity_witness :
    ((4096 : Nat) ≠ 0 ∧ BindingState.valid ⟨[], []⟩ = true ∧
      BindingState.unique ⟨[], []⟩ = true) ∧
    ∃ a o,
      (ObjectTypeConverter.toPython (fun _ => 0) ⟨[], []⟩ (some (.SbkObject 3 [])) 4096).1
        = .sbkObject a ∧
      (ObjectTypeConverter.toPython (fun _ => 0)
        (ObjectTypeConverter.toPython (fun _ => 0) ⟨[], []⟩ (some (.SbkObject 3 [])) 4096).2
        (some (.SbkObject 3 [])) 4096).1 = .sbkObject a ∧
      (ObjectTypeConverter.toPython (fun _ => 0) ⟨[], []⟩ (some (.SbkObject 3 [])) 4096).2.objects.get?
        a = some o ∧
      (ObjectTypeConverter.toPython (fun _ => 0)
        (ObjectTypeConverter.toPython (fun _ => 0) ⟨[], []⟩ (some (.SbkObject 3 [])) 4096).2
        (some (.SbkObject 3 [])) 4096).2.objects
        = (ObjectTypeConverter.toPython (fun _ => 0) ⟨[], []⟩ (some (.SbkObject 3 []))
            4096).2.objects.set a { o with ob_refcnt := o.ob_refcnt + 1 } ∧
      (ObjectTypeConverter.toPython (fun _ => 0)
        (ObjectTypeConverter.toPython (fun _ => 0) ⟨[], []⟩ (some (.SbkObject 3 [])) 4096).2
        (some (.SbkObject 3 [])) 4096).2.wrapperMapper
        = (ObjectTypeConverter.toPython (fun _ => 0) ⟨[], []⟩ (some (.SbkObject 3 []))
            4096).2.wrapperMapper ∧
      BindingManager.retrieveWrapper (ObjectTypeConverter.toPython (fun _ => 0)
        (ObjectTypeConverter.toPython (fun _ => 0) ⟨[], []⟩ (some (.SbkObject 3 [])) 4096).2
        (some (.SbkObject 3 [])) 4096).2 4096 = some a ∧
      (ObjectTypeConverter.toPython (fun _ => 0) ⟨[], []⟩ (some (.SbkObject 3 []))
        4096).2.unique = true ∧
      (ObjectTypeConverter.toPython (fun _ => 0)
        (ObjectTypeConverter.toPython (fun _ => 0) ⟨[], []⟩ (some (.SbkObject 3 [])) 4096).2
        (some (.SbkObject 3 [])) 4096).2.unique = true :=
  ⟨by decide,
    (ObjectTypeConverter_toPython_identity (fun _ => 0) (some (.SbkObject 3 []))).2
      ⟨[], []⟩ 4096 _ _ (by decide) (by decide) (by decide) rfl rfl⟩

/-- C15: `ValueTypeConverter::toPython` creates a new wrapper (its address is
that of no wrapper that existed, so of none the registry held) with the
ownership flag set, pointing to a fresh native object that holds a copy of the
value, and leaves every other wrapper and native object as it was;
`ObjectTypeConverter::toPython`, for a non-null pointer the registry has no
wrapper for, creates a wrapper with the ownership flag cleared. -/
theorem toPython_ownership (typeid_name : Nat → Nat) (sbkType : Option PyTypeObject)
    (α : Type) :
    (∀ (st : BindingState) (mem : NativeHeap α) (cppobj : α)
        (r : PyObjectPtr × BindingState × NativeHeap α),
      ValueTypeConverter.toPython typeid_name st mem sbkType cppobj = r →
      r.1 = .sbkObject st.objects.length ∧
      r.2.1.objects = st.objects ++ [⟨1, sbkType, mem.length + 1, true⟩] ∧
      (st.valid = true → ∀ q, BindingManager.retrieveWrapper st q ≠ some st.objects.length) ∧
      NativeHeap.deref mem (mem.length + 1) = Option.none ∧
      NativeHeap.deref r.2.2 (mem.length + 1) = some cppobj ∧
      (∀ q v, NativeHeap.deref mem q = some v → NativeHeap.deref r.2.2 q = some v)) ∧
    (∀ (st : BindingState) (p : Nat) (r : PyObjectPtr × BindingState),
      p ≠ 0 → BindingManager.retrieveWrapper st p = Option.none →
      ObjectTypeConverter.toPython typeid_name st sbkType p = r →
      r.1 = .sbkObject st.objects.length ∧
      r.2.objects = st.objects ++ [⟨1, sbkType, p, false⟩]) := by
  refine ⟨?_, ?_⟩
  · intro st mem cppobj r hr
    subst hr
    refine ⟨rfl, rfl, ?_, ?_, ?_, ?_⟩
    · intro hv q hq
      have hmem := retrieveWrapper_mem st q _ hq
      simp only [BindingState.valid, List.all_eq_true, decide_eq_true_eq] at hv
      exact absurd (hv _ hmem) (lt_irrefl _)
    · simp [NativeHeap.deref]
    · simp [ValueTypeConverter.toPython, NativeHeap.new, NativeHeap.deref]
    · intro q v hq
      simp only [NativeHeap.deref] at hq ⊢
      by_cases h0 : q = 0
      · simp [h0] at hq
      · simp only [h0, if_false] at hq ⊢
        simp only [ValueTypeConverter.toPython, NativeHeap.new]
        have hlt : q - 1 < mem.length := by
          by_contra hge
          rw [List.get?_eq_none.mpr (by omega)] at hq
          cases hq
        rw [List.get?_eq_getElem?, List.getElem?_append_left hlt, ← List.get?_eq_getElem?]
        exact hq
  · intro st p r hp hnone hr
    subst hr
    simp [ObjectTypeConverter.toPython, hp, hnone, createWrapper, Object.newObject,
      BindingManager.registerWrapper]

/-- Witness for C15: a value type converted in a state that holds one wrapper,
and a pointer the registry does not know. -/
theorem toPython_ownership_witness :
    (BindingState.valid ⟨[⟨1, Option.none, 4096, false⟩], [(4096, 0)]⟩ = true ∧
      (8192 : Nat) ≠ 0 ∧
      BindingManager.retrieveWrapper ⟨[⟨1, Option.none, 4096, false⟩], [(4096, 0)]⟩ 8192
        = Option.none) ∧
    (∀ q, BindingManager.retrieveWrapper ⟨[⟨1, Option.none, 4096, false⟩], [(4096, 0)]⟩ q
        ≠ some 1) ∧
    ((ObjectTypeConverter.toPython (fun _ => 0) ⟨[⟨1, Option.none, 4096, false⟩], [(4096, 0)]⟩
        Option.none 8192).1 = .sbkObject 1 ∧
      (ObjectTypeConverter.toPython (fun _ => 0) ⟨[⟨1, Option.none, 4096, false⟩], [(4096, 0)]⟩
        Option.none 8192).2.objects
        = [⟨1, Option.none, 4096, false⟩] ++ [⟨1, Option.none, 8192, false⟩]) :=
  ⟨by decide,
    ((toPython_ownership (fun _ => 0) Option.none Int).1
      ⟨[⟨1, Option.none, 4096, false⟩], [(4096, 0)]⟩ [] 5 _ rfl).2.2.1 (by decide),
    (toPython_ownership (fun _ => 0) Option.none Int).2
      ⟨[⟨1, Option.none, 4096, false⟩], [(4096, 0)]⟩ 8192 _ (by decide) (by decide) rfl⟩

/-! ## Reference conversions -/

/-- C16, counterexample: for the no-value sentinel the pointer conversions
`Converter<int*>::toCpp` and `ObjectTypeConverter::toCpp` return the null
pointer with no error, and the reference conversions `Converter<int&>::toCpp`
and `ObjectTypeReferenceConverter::toCpp` built on them have no defined result:
no error is signalled. -/
theorem reference_toCpp_None_undefined :
    Converter_pointer.toCpp (some (SbkType_int .int)) (Converter_PyInt ILP32 .int) [] .none
      = some (⟨0, Option.none⟩, []) ∧
    Converter_reference.toCpp
      (Converter_pointer.toCpp (some (SbkType_int .int)) (Converter_PyInt ILP32 .int)) [] .none
      = Option.none ∧
    ObjectTypeConverter.toCpp (fun _ => false) (fun _ => 0) ([] : NativeHeap Int) .none
      = some (⟨0, Option.none⟩, []) ∧
    ObjectTypeReferenceConverter.toCpp
      (ObjectTypeConverter.toCpp (fun _ => false) (fun _ => 0)) ([] : NativeHeap Int) .none
      = Option.none := by
  decide

/-- C16, amended: for every `T`, whenever the underlying pointer conversion
`Converter<T*>::toCpp` returns null, `Converter<T&>::toCpp` dereferences the
null pointer and `ObjectTypeReferenceConverter<T>::toCpp` fails its
`assert(t)`: neither has a defined result and neither signals a pending
error. -/
theorem reference_toCpp_of_null {α : Type}
    (pointerToCpp : NativeHeap α → PyObject → Option (CppResult Nat × NativeHeap α))
    (mem mem' : NativeHeap α) (pyobj : PyObject) (e : Option PyExc)
    (h : pointerToCpp mem pyobj = some (⟨0, e⟩, mem')) :
    Converter_reference.toCpp pointerToCpp mem pyobj = Option.none ∧
    ObjectTypeReferenceConverter.toCpp pointerToCpp mem pyobj = Option.none := by
  simp [Converter_reference.toCpp, ObjectTypeReferenceConverter.toCpp, h, NativeHeap.deref]

/-- Witness for the amended C16: `Py_None` converted to a reference to a value
of a wrapped class. -/
theorem reference_toCpp_of_null_witness :
    Converter_pointer.toCpp (some (.SbkObject 3 [])) (Converter_PyInt ILP32 .int) [7] .none
      = some (⟨0, Option.none⟩, [7]) ∧
    (Converter_reference.toCpp
        (Converter_pointer.toCpp (some (.SbkObject 3 [])) (Converter_PyInt ILP32 .int)) [7] .none
        = Option.none ∧
      ObjectTypeReferenceConverter.toCpp
        (Converter_pointer.toCpp (some (.SbkObject 3 [])) (Converter_PyInt ILP32 .int)) [7] .none
        = Option.none) :=
  ⟨rfl,
    reference_toCpp_of_null
      (Converter_pointer.toCpp (some (.SbkObject 3 [])) (Converter_PyInt ILP32 .int))
      [7] [7] .none Option.none rfl⟩

/-! ## Wrapped cast result, foreign wrappers, sequence round trip -/

/-- The result of `static_cast<T>` lies in the range of `T` and differs from its
operand by a multiple of `2 ^ bits`. -/
theorem static_cast_wraps (P : Platform) (T : CInt) (v : Int) :
    T.inRange P (static_cast P T v) = true ∧
    ((2 : Int) ^ T.bits P) ∣ (v - static_cast P T v) := by
  cases T <;> rcases P with ⟨l, c, f⟩ <;> cases l <;> cases c <;>
    simp [static_cast, CInt.inRange, CInt.is_signed, CInt.min, CInt.max, CInt.bits] <;>
    (try split_ifs) <;> omega

/-- C23: for every integer target type `T` and every dynamic integer `v` in the
signed 64-bit range, `Converter_PyInt::toCpp` returns `static_cast<T>(v)`, a
value in the range of `T` that differs from `v` by a multiple of `2 ^ w`; when
`v` is outside `[min(T), max(T)]` OverflowError is pending next to that value,
and when `v` is in range the value is `v` and no error is set. -/
theorem Converter_PyInt_toCpp_wrapped (P : Platform) (T : CInt) (v : Int)
    (hlo : LLONG_MIN ≤ v) (hhi : v ≤ LLONG_MAX) :
    ∃ r, Converter_PyInt.toCpp P T (.int v) = some r ∧
      r.value = static_cast P T v ∧
      T.inRange P r.value = true ∧
      ((2 : Int) ^ T.bits P) ∣ (v - r.value) ∧
      (T.inRange P v = false → r.error = some PyExc.OverflowError) ∧
      (T.inRange P v = true → r.value = v ∧ r.error = Option.none) := by
  have hf : PyFloat_Check (.int v) = false := rfl
  have hd : (decide (LLONG_MIN ≤ v) && decide (v ≤ LLONG_MAX)) = true := by
    simp only [Bool.and_eq_true, decide_eq_true_eq]; exact ⟨hlo, hhi⟩
  simp only [Converter_PyInt.toCpp, hf, PyLong_AsLongLong_int]
  rw [if_pos hd]
  refine ⟨_, rfl, rfl, (static_cast_wraps P T v).1, (static_cast_wraps P T v).2, ?_, ?_⟩
  · intro h
    show (if OverFlowChecker.check P T v = true then some PyExc.OverflowError else Option.none)
      = some PyExc.OverflowError
    rw [OverFlowChecker_check_eq P T v hlo hhi, h]
    rfl
  · intro h
    refine ⟨static_cast_of_inRange P T v h, ?_⟩
    show (if OverFlowChecker.check P T v = true then some PyExc.OverflowError else Option.none)
      = Option.none
    rw [OverFlowChecker_check_eq P T v hlo hhi, h]
    rfl

/-- Witness for C23: the integer `70000` against `short` wraps to `4464` with
OverflowError pending. -/
theorem Converter_PyInt_toCpp_wrapped_witness :
    (LLONG_MIN ≤ 70000 ∧ (70000 : Int) ≤ LLONG_MAX ∧
      Converter_PyInt.toCpp ILP32 .short (.int 70000) = some ⟨4464, some .OverflowError⟩) ∧
    ∃ r, Converter_PyInt.toCpp ILP32 .short (.int 70000) = some r ∧
      r.value = static_cast ILP32 .short 70000 ∧
      CInt.inRange ILP32 .short r.value = true ∧
      ((2 : Int) ^ CInt.bits ILP32 .short) ∣ (70000 - r.value) ∧
      (CInt.inRange ILP32 .short 70000 = false → r.error = some PyExc.OverflowError) ∧
      (CInt.inRange ILP32 .short 70000 = true → r.value = 70000 ∧ r.error = Option.none) :=
  ⟨by decide, Converter_PyInt_toCpp_wrapped ILP32 .short 70000 (by decide) (by decide)⟩

/-- C22: for each container converter whose native container type has a
registered wrapper type, a wrapper object that is no instance of that type is
classified not convertible, whatever it presents through the sequence protocol
and whatever the element tests answer; what is accepted is an instance of the
container's own wrapper type, or an object that is no wrapper and is a sequence
(for a pair: of length 2; for a map: a dictionary). -/
theorem container_isConvertible_foreign_wrapper (t : PyTypeObject)
    (elem first second : PyObject → Bool) :
    (∀ w : PyObject, Object.checkType w = true → PyObject_TypeCheck w (some t) = false →
      StdListConverter.isConvertible (some t) elem w = false ∧
      StdPairConverter.isConvertible (some t) first second w = false ∧
      StdMapConverter.isConvertible (some t) first second w = false) ∧
    (∀ x : PyObject, StdListConverter.isConvertible (some t) elem x = true →
      PyObject_TypeCheck x (some t) = true ∨
        (Object.checkType x = false ∧ PySequence_Check x = true)) ∧
    (∀ x : PyObject, StdPairConverter.isConvertible (some t) first second x = true →
      PyObject_TypeCheck x (some t) = true ∨
        (Object.checkType x = false ∧ PySequence_Check x = true ∧
          (PySequence_Length x).value = 2)) ∧
    (∀ x : PyObject, StdMapConverter.isConvertible (some t) first second x = true →
      PyObject_TypeCheck x (some t) = true ∨
        (Object.checkType x = false ∧ PyDict_Check x = true)) := by
  refine ⟨?_, ?_, ?_, ?_⟩
  · intro w hw ht
    simp [StdListConverter.isConvertible, StdPairConverter.isConvertible,
      StdMapConverter.isConvertible, hw, ht]
  · intro x h
    by_cases ht : PyObject_TypeCheck x (some t) = true
    · exact Or.inl ht
    · right
      simp [StdListConverter.isConvertible, ht] at h
      exact h.1
  · intro x h
    by_cases ht : PyObject_TypeCheck x (some t) = true
    · exact Or.inl ht
    · right
      simp [StdPairConverter.isConvertible, ht] at h
      exact ⟨h.1.1.1, h.1.1.2, h.1.2⟩
  · intro x h
    by_cases ht : PyObject_TypeCheck x (some t) = true
    · exact Or.inl ht
    · right
      simp [StdMapConverter.isConvertible, ht] at h
      exact h.1

/-- Witness for C22: a wrapper of type `9` that presents the items `[1, 2]`,
against containers of `int` whose registered wrapper type is `7`. -/
theorem container_isConvertible_foreign_wrapper_witness :
    (Object.checkType (.wrapper 9 [] 4096 (some [.int 1, .int 2])) = true ∧
      PyObject_TypeCheck (.wrapper 9 [] 4096 (some [.int 1, .int 2])) (some (.SbkObject 7 []))
        = false ∧
      PySequence_Check (.wrapper 9 [] 4096 (some [.int 1, .int 2])) = true ∧
      (Converter_PyInt ILP32 .int).isConvertible (.int 1) = true ∧
      (Converter_PyInt ILP32 .int).isConvertible (.int 2) = true) ∧
    (StdListConverter.isConvertible (some (.SbkObject 7 []))
        (Converter_PyInt ILP32 .int).isConvertible
        (.wrapper 9 [] 4096 (some [.int 1, .int 2])) = false ∧
      StdPairConverter.isConvertible (some (.SbkObject 7 []))
        (Converter_PyInt ILP32 .int).isConvertible (Converter_PyInt ILP32 .int).isConvertible
        (.wrapper 9 [] 4096 (some [.int 1, .int 2])) = false ∧
      StdMapConverter.isConvertible (some (.SbkObject 7 []))
        (Converter_PyInt ILP32 .int).isConvertible (Converter_PyInt ILP32 .int).isConvertible
        (.wrapper 9 [] 4096 (some [.int 1, .int 2])) = false) :=
  ⟨by decide,
    (container_isConvertible_foreign_wrapper (.SbkObject 7 [])
      (Converter_PyInt ILP32 .int).isConvertible (Converter_PyInt ILP32 .int).isConvertible
      (Converter_PyInt ILP32 .int).isConvertible).1
      (.wrapper 9 [] 4096 (some [.int 1, .int 2])) rfl (by decide)⟩

/-- A native object allocated with `new` leaves the objects allocated before it
where they are. -/
theorem NativeHeap_new_spec {α : Type} (mem : NativeHeap α) (v : α) :
    (NativeHeap.new mem v).1 ≠ 0 ∧
    NativeHeap.deref mem (NativeHeap.new mem v).1 = Option.none ∧
    NativeHeap.deref (NativeHeap.new mem v).2 (NativeHeap.new mem v).1 = some v ∧
    ∀ q w, NativeHeap.deref mem q = some w →
      NativeHeap.deref (NativeHeap.new mem v).2 q = some w := by
  refine ⟨by simp [NativeHeap.new], by simp [NativeHeap.new, NativeHeap.deref],
    by simp [NativeHeap.new, NativeHeap.deref], ?_⟩
  intro q w hq
  simp only [NativeHeap.deref] at hq ⊢
  by_cases h0 : q = 0
  · simp [h0] at hq
  · simp only [h0, if_false] at hq ⊢
    simp only [NativeHeap.new]
    have hlt : q - 1 < mem.length := by
      by_contra hge
      rw [List.get?_eq_none.mpr (by omega)] at hq
      cases hq
    rw [List.get?_eq_getElem?, List.getElem?_append_left hlt, ← List.get?_eq_getElem?]
    exact hq

/-- C21, counterexample: the no-value sentinel is convertible under
`Converter<void*>` and under `Converter<std::string>`, so the pointer adapter
over them does not map it to the null pointer: `Converter<void**>::toCpp`
returns a pointer to a fresh copy of the converted sentinel, and
`Converter<std::string*>::toCpp` converts it with `Converter<std::string>`,
which constructs a string from the null pointer.  And the integer `5` is no
wrapper and is convertible under `Converter<int>`, but it passes the type test
against `SbkType<int>()`, so `Converter<int*>::toCpp` reads it as a wrapper,
with no defined result, and makes no copy. -/
theorem Converter_pointer_toCpp_None_convertible :
    (Converter_voidPtr.isConvertible .none = true ∧
      Converter_pointer.toCpp Option.none Converter_voidPtr [] .none
        = some (⟨1, Option.none⟩, [some PyObject.none])) ∧
    (Converter_stdString.isConvertible .none = true ∧
      Converter_pointer.toCpp Option.none Converter_stdString [] .none = Option.none) ∧
    (Object.checkType (.int 5) = false ∧
      (Converter_PyInt ILP32 .int).isConvertible (.int 5) = true ∧
      (Converter_PyInt ILP32 .int).toCpp (.int 5) = some ⟨5, Option.none⟩ ∧
      PyObject_TypeCheck (.int 5) (some (SbkType_int .int)) = true ∧
      Converter_pointer.toCpp (some (SbkType_int .int)) (Converter_PyInt ILP32 .int) [] (.int 5)
        = Option.none) :=
  ⟨⟨rfl, rfl⟩, ⟨rfl, rfl⟩, rfl, by decide, by decide, by decide, by decide⟩

/-- C21, amended: for every `T` with policy `Converter<T>`, the pointer adapter
`Converter<T*>::toCpp` maps the no-value sentinel to the null pointer when the
sentinel is neither an instance of `SbkType<T>()` nor convertible under
`Converter<T>`; it maps a wrapper object that is an instance of `SbkType<T>()`
to the wrapper's stored native pointer and allocates nothing; it maps a value
that is no instance of `SbkType<T>()` and is convertible under `Converter<T>` to
a pointer to a fresh native object equal to `Converter<T>::toCpp` of that value,
leaving the other native objects as they are; and `Converter<T*>::toPython`
maps the null pointer to the no-value sentinel. -/
theorem Converter_pointer_toCpp_spec {α : Type} (typeid_name : Nat → Nat)
    (sbkType : Option PyTypeObject) (E : Converter α) (mem : NativeHeap α) :
    (PyObject_TypeCheck .none sbkType = false → E.isConvertible .none = false →
      Converter_pointer.toCpp sbkType E mem .none = some (⟨0, Option.none⟩, mem)) ∧
    (∀ (tp : Nat) (bases : List Nat) (p : Nat) (seq : Option (List PyObject)),
      PyObject_TypeCheck (.wrapper tp bases p seq) sbkType = true →
      Converter_pointer.toCpp sbkType E mem (.wrapper tp bases p seq)
        = some (⟨p, Option.none⟩, mem)) ∧
    (∀ (x : PyObject) (r : CppResult α),
      PyObject_TypeCheck x sbkType = false → E.isConvertible x = true → E.toCpp x = some r →
      ∃ p mem', Converter_pointer.toCpp sbkType E mem x = some (⟨p, r.error⟩, mem') ∧
        p ≠ 0 ∧ NativeHeap.deref mem p = Option.none ∧
        NativeHeap.deref mem' p = some r.value ∧
        ∀ q v, NativeHeap.deref mem q = some v → NativeHeap.deref mem' q = some v) ∧
    (∀ st : BindingState,
      Converter_pointer.toPython typeid_name st sbkType 0 = (.Py_None, st)) := by
  refine ⟨?_, ?_, ?_, ?_⟩
  · intro ht hc
    simp [Converter_pointer.toCpp, ht, hc, isPyNone]
  · intro tp bases p seq hw
    simp [Converter_pointer.toCpp, hw, Object.cppPointer]
  · intro x r ht hc hr
    obtain ⟨h1, h2, h3, h4⟩ := NativeHeap_new_spec mem r.value
    refine ⟨(NativeHeap.new mem r.value).1, (NativeHeap.new mem r.value).2, ?_, h1, h2, h3, h4⟩
    simp [Converter_pointer.toCpp, ht, hc, hr]
  · intro st
    simp [Converter_pointer.toPython]

/-- Witness for the amended C21: a pointer to a pair of `int` whose wrapper type
is `7`, on the sentinel, on a wrapper of that type and on the plain tuple
`(1, 2)`. -/
theorem Converter_pointer_toCpp_spec_witness :
    (PyObject_TypeCheck .none (some (.SbkObject 7 [])) = false ∧
      (StdPairConverter (some (.SbkObject 7 [])) (Converter_PyInt ILP32 .int)
        (Converter_PyInt ILP32 .int)).isConvertible .none = false ∧
      PyObject_TypeCheck (.wrapper 7 [] 4096 Option.none) (some (.SbkObject 7 [])) = true ∧
      PyObject_TypeCheck (.tuple [.int 1, .int 2]) (some (.SbkObject 7 [])) = false ∧
      (StdPairConverter (some (.SbkObject 7 [])) (Converter_PyInt ILP32 .int)
        (Converter_PyInt ILP32 .int)).isConvertible (.tuple [.int 1, .int 2]) = true ∧
      (StdPairConverter (some (.SbkObject 7 [])) (Converter_PyInt ILP32 .int)
        (Converter_PyInt ILP32 .int)).toCpp (.tuple [.int 1, .int 2])
        = some ⟨(1, 2), Option.none⟩) ∧
    Converter_pointer.toCpp (some (.SbkObject 7 []))
      (StdPairConverter (some (.SbkObject 7 [])) (Converter_PyInt ILP32 .int)
        (Converter_PyInt ILP32 .int)) [(9, 9)] .none = some (⟨0, Option.none⟩, [(9, 9)]) ∧
    Converter_pointer.toCpp (some (.SbkObject 7 []))
      (StdPairConverter (some (.SbkObject 7 [])) (Converter_PyInt ILP32 .int)
        (Converter_PyInt ILP32 .int)) [(9, 9)] (.wrapper 7 [] 4096 Option.none)
      = some (⟨4096, Option.none⟩, [(9, 9)]) ∧
    (∃ p mem', Converter_pointer.toCpp (some (.SbkObject 7 []))
        (StdPairConverter (some (.SbkObject 7 [])) (Converter_PyInt ILP32 .int)
          (Converter_PyInt ILP32 .int)) [(9, 9)] (.tuple [.int 1, .int 2])
        = some (⟨p, Option.none⟩, mem') ∧
      p ≠ 0 ∧ NativeHeap.deref [((9 : Int), (9 : Int))] p = Option.none ∧
      NativeHeap.deref mem' p = some (1, 2) ∧
      ∀ q v, NativeHeap.deref [((9 : Int), (9 : Int))] q = some v →
        NativeHeap.deref mem' q = some v) :=
  ⟨by decide,
    (Converter_pointer_toCpp_spec (fun _ => 0) (some (.SbkObject 7 []))
      (StdPairConverter (some (.SbkObject 7 [])) (Converter_PyInt ILP32 .int)
        (Converter_PyInt ILP32 .int)) [(9, 9)]).1 (by decide) (by decide),
    (Converter_pointer_toCpp_spec (fun _ => 0) (some (.SbkObject 7 []))
      (StdPairConverter (some (.SbkObject 7 [])) (Converter_PyInt ILP32 .int)
        (Converter_PyInt ILP32 .int)) [(9, 9)]).2.1 7 [] 4096 Option.none (by decide),
    (Converter_pointer_toCpp_spec (fun _ => 0) (some (.SbkObject 7 []))
      (StdPairConverter (some (.SbkObject 7 [])) (Converter_PyInt ILP32 .int)
        (Converter_PyInt ILP32 .int)) [(9, 9)]).2.2.1 (.tuple [.int 1, .int 2])
      ⟨(1, 2), Option.none⟩ (by decide) (by decide) (by decide)⟩

end Shiboken
